import Mathlib

/-!
Verification of the meshmapPoller daemon (src/backend/meshmapPoller.py).

Shallow embedding conventions:
* Python strings processed character-wise are modelled as `List Char`; strings used
  only as opaque keys or labels stay `String`.
* Python `None` is `Option.none`; Python dicts are association lists with
  insert-or-overwrite-in-place semantics (`dictInsert`), which preserves first-insertion
  order exactly as CPython dicts do.
* Machine floats that carry exact decimal config/coordinate data are modelled as `ℚ` in
  the discrete parts of the daemon, and as `ℝ` in the trigonometric distance/bearing
  computation.  Python `round(x, k)` is modelled as exact half-even rounding to k
  decimal digits.
* `\d` in the source regexes and `str.isdigit`/`int()` accept some non-ASCII Unicode
  digits in CPython; the embedding models the ASCII behaviour, which is the only one
  exercised by firmware version strings.
-/

namespace Nodographer

/-! ### Python string primitives -/

/-- ASCII whitespace characters stripped by Python `str.strip()`. -/
def isPyWs (c : Char) : Bool :=
  c = ' ' || c = '\t' || c = '\n' || c = '\r' || c = '\x0b' || c = '\x0c'

/-- Python `str.strip()`: drop whitespace from both ends. -/
def pyStrip (l : List Char) : List Char :=
  ((l.dropWhile isPyWs).reverse.dropWhile isPyWs).reverse

/-- Numeric value of an ASCII digit character. -/
def digitVal (c : Char) : Nat := c.toNat - '0'.toNat

/-- Value of a plain run of ASCII digits, most significant first. -/
def digitsVal (l : List Char) : Nat := l.foldl (fun acc c => acc * 10 + digitVal c) 0

/-- Tail of Python `int()` digit parsing: digits with single underscores allowed
between two digits. -/
def pyDigitsAux (acc : Nat) : List Char → Option Nat
  | [] => some acc
  | c :: rest =>
    if c.isDigit then pyDigitsAux (acc * 10 + digitVal c) rest
    else if c = '_' then
      match rest with
      | d :: rest2 => if d.isDigit then pyDigitsAux (acc * 10 + digitVal d) rest2 else none
      | [] => none
    else none

/-- Python `int()` digit-run parser: nonempty and starting with a digit. -/
def pyDigits : List Char → Option Nat
  | [] => none
  | c :: rest => if c.isDigit then pyDigitsAux (digitVal c) rest else none

/-- Sign handling of Python `int(str)`, applied to the stripped text. -/
def pyIntAux : List Char → Option Int
  | [] => none
  | c :: rest =>
    if c = '+' then (pyDigits rest).map fun n => (n : Int)
    else if c = '-' then (pyDigits rest).map fun n => -(n : Int)
    else (pyDigits (c :: rest)).map fun n => (n : Int)

/-- Model of Python `int(str)`: optional surrounding whitespace, optional sign,
then a digit run. -/
def pyInt (l : List Char) : Option Int := pyIntAux (pyStrip l)

/-- Python `str.split(sep)` for a one-character separator. -/
def splitOnChar (sep : Char) : List Char → List (List Char)
  | [] => [[]]
  | c :: rest =>
    if c = sep then [] :: splitOnChar sep rest
    else
      match splitOnChar sep rest with
      | [] => [[c]]
      | h :: t => (c :: h) :: t

/-! ### Firmware classification helpers (source lines 40-165) -/

/-- The comprehension `[int(p) for p in parts]`: all parts must parse. -/
def intListParse : List (List Char) → Option (List Int)
  | [] => some []
  | p :: rest =>
    match pyInt p, intListParse rest with
    | some n, some ns => some (n :: ns)
    | _, _ => none

/-- Embedding of `version_to_int`: split on dots, `int()` each part, pad with zeros
to four components, combine `a*10^6 + b*10^4 + c*10^2 + d`. -/
def version_to_int (version : List Char) : Option Int :=
  if version = [] then none
  else
    match intListParse (splitOnChar '.' version) with
    | none => none
    | some ps =>
      let ps := ps ++ List.replicate (4 - ps.length) (0 : Int)
      some (ps.getD 0 0 * 1000000 + ps.getD 1 0 * 10000 + ps.getD 2 0 * 100 + ps.getD 3 0)

/-- Embedding of `nightly_to_int`: split on dash, `int()` of the first part. -/
def nightly_to_int (nightly : List Char) : Option Int :=
  if nightly = [] then none
  else pyInt ((splitOnChar '-' nightly).headD [])

/-- One or two ASCII digits, as matched by the regex piece `\d{1,2}`. -/
def isShortDigits (l : List Char) : Bool :=
  decide (1 ≤ l.length) && decide (l.length ≤ 2) && l.all Char.isDigit

/-- Structural model of `re.fullmatch` for `\d{1,2}\.\d{1,2}\.\d{1,2}\.\d{1,2}`. -/
def isDottedQuadRe (v : List Char) : Bool :=
  match splitOnChar '.' v with
  | [a, b, c, d] => isShortDigits a && isShortDigits b && isShortDigits c && isShortDigits d
  | _ => false

/-- ASCII hex digit as in the character class `[0-9a-fA-F]`. -/
def isHexDigitAscii (c : Char) : Bool :=
  c.isDigit || (decide ('a' ≤ c) && decide (c ≤ 'f')) || (decide ('A' ≤ c) && decide (c ≤ 'F'))

/-- Structural model of `re.fullmatch` for `\d{8}-[0-9a-fA-F]{7,8}`. -/
def isNightlyRe (v : List Char) : Bool :=
  decide ((v.take 8).length = 8) && (v.take 8).all Char.isDigit &&
    match v.drop 8 with
    | c :: h =>
      c = '-' && (decide (7 ≤ h.length) && decide (h.length ≤ 8)) && h.all isHexDigitAscii
    | [] => false

/-- Embedding of `_is_firmware`: classify a firmware version string against the
cutoff rules. -/
def is_firmware (version : List Char) (fw_type : String)
    (version_cutoff nightly_cutoff : Int) : Bool :=
  if version = [] then false
  else
    let v := pyStrip version
    if fw_type = "babel" then "babel-".data.isPrefixOf v
    else if fw_type = "olsr" then
      if isDottedQuadRe v then
        match version_to_int v with
        | some n => decide (n < version_cutoff)
        | none => false
      else if isNightlyRe v then
        match nightly_to_int v with
        | some n => decide (n < nightly_cutoff)
        | none => false
      else false
    else if fw_type = "combo" then
      if "babel-".data.isPrefixOf v then false
      else if isDottedQuadRe v then
        match version_to_int v with
        | some n => decide (version_cutoff ≤ n)
        | none => false
      else if isNightlyRe v then
        match nightly_to_int v with
        | some n => decide (nightly_cutoff ≤ n)
        | none => false
      else false
    else false

/-! ### Spec-side reading of the classifier (spec section 4.1), for refinement
comparison with the source embedding above. -/

/-- Value of a dotted quad whose four components are 1-2 digit numbers, following
the words of the spec; absent for any other shape. -/
def specQuadVal (v : List Char) : Option Int :=
  match splitOnChar '.' v with
  | [a, b, c, d] =>
    if isShortDigits a && isShortDigits b && isShortDigits c && isShortDigits d then
      some ((digitsVal a : Int) * 1000000 + (digitsVal b : Int) * 10000 +
        (digitsVal c : Int) * 100 + (digitsVal d : Int))
    else none
  | _ => none

/-- Integer date prefix of a `YYYYMMDD-hex{7,8}` nightly identifier, following the
words of the spec; absent for any other shape. -/
def specNightlyVal (v : List Char) : Option Int :=
  if isNightlyRe v then some ((digitsVal (v.take 8) : Int)) else none

/-- The classifier as worded by the spec:
`classify(version, kind, versionCutoff, nightlyCutoff)`. -/
def classifySpec (v : List Char) (kind : String) (vc nc : Int) : Bool :=
  if kind = "babel" then "babel-".data.isPrefixOf v
  else if kind = "olsr" then
    (match specQuadVal v with | some n => decide (n < vc) | none => false) ||
    (match specNightlyVal v with | some n => decide (n < nc) | none => false)
  else if kind = "combo" then
    !("babel-".data.isPrefixOf v) &&
    ((match specQuadVal v with | some n => decide (vc ≤ n) | none => false) ||
     (match specNightlyVal v with | some n => decide (nc ≤ n) | none => false))
  else false

/-! ### Lemmas about the string primitives -/

theorem isDigit_ne {c d : Char} (h : c.isDigit = true) (hd : d.isDigit = false) : c ≠ d := by
  intro e
  rw [e, hd] at h
  cases h

theorem isPyWs_eq_false {c : Char} (h : c.isDigit = true) : isPyWs c = false := by
  rcases hb : isPyWs c
  · rfl
  · exfalso
    revert h
    simp only [isPyWs, Bool.or_eq_true, decide_eq_true_eq] at hb
    rcases hb with ((((hb | hb) | hb) | hb) | hb) | hb <;> subst hb <;> decide

theorem dropWhile_eq_self {p : Char → Bool} {l : List Char} (h : ∀ c ∈ l, p c = false) :
    l.dropWhile p = l := by
  cases l with
  | nil => rfl
  | cons c rest => simp [List.dropWhile_cons, h c (List.mem_cons_self c rest)]

theorem pyStrip_eq_self {l : List Char} (h : ∀ c ∈ l, c.isDigit = true) : pyStrip l = l := by
  have h1 : ∀ c ∈ l, isPyWs c = false := fun c hc => isPyWs_eq_false (h c hc)
  unfold pyStrip
  rw [dropWhile_eq_self h1,
    dropWhile_eq_self (fun c hc => h1 c (List.mem_reverse.mp hc)), List.reverse_reverse]

theorem pyDigitsAux_eq (l : List Char) : ∀ acc : Nat, (∀ c ∈ l, c.isDigit = true) →
    pyDigitsAux acc l = some (l.foldl (fun a c => a * 10 + digitVal c) acc) := by
  induction l with
  | nil => intro acc _; rfl
  | cons c rest ih =>
    intro acc h
    have hc := h c (List.mem_cons_self c rest)
    rw [pyDigitsAux.eq_def]
    simp only [hc, if_true, List.foldl_cons]
    exact ih _ (fun x hx => h x (List.mem_cons_of_mem c hx))

theorem pyDigits_eq {l : List Char} (hne : l ≠ []) (h : ∀ c ∈ l, c.isDigit = true) :
    pyDigits l = some (digitsVal l) := by
  obtain ⟨c, rest, rfl⟩ := List.exists_cons_of_ne_nil hne
  rw [pyDigits, if_pos (h c (List.mem_cons_self c rest)),
    pyDigitsAux_eq rest _ (fun x hx => h x (List.mem_cons_of_mem c hx))]
  simp [digitsVal]

theorem pyInt_digits {l : List Char} (hne : l ≠ []) (h : ∀ c ∈ l, c.isDigit = true) :
    pyInt l = some ((digitsVal l : Int)) := by
  unfold pyInt
  rw [pyStrip_eq_self h]
  obtain ⟨c, rest, rfl⟩ := List.exists_cons_of_ne_nil hne
  have hc := h c (List.mem_cons_self c rest)
  rw [pyIntAux, if_neg (isDigit_ne hc (by decide)), if_neg (isDigit_ne hc (by decide)),
    pyDigits_eq hne h]
  rfl

theorem splitOnChar_ne_nil (sep : Char) (l : List Char) : splitOnChar sep l ≠ [] := by
  cases l with
  | nil => simp [splitOnChar]
  | cons c rest =>
    rw [splitOnChar]
    split
    · simp
    · rcases h : splitOnChar sep rest with _ | ⟨hd, tl⟩ <;> simp

theorem splitOnChar_not_mem {sep : Char} {l : List Char} (h : sep ∉ l) :
    splitOnChar sep l = [l] := by
  induction l with
  | nil => rfl
  | cons c rest ih =>
    have hc : ¬(c = sep) := fun e => h (e ▸ List.mem_cons_self c rest)
    rw [splitOnChar, if_neg hc, ih (fun hm => h (List.mem_cons_of_mem c hm))]

theorem splitOnChar_append {sep : Char} {l : List Char} (h : sep ∉ l) (r : List Char) :
    splitOnChar sep (l ++ sep :: r) = l :: splitOnChar sep r := by
  induction l with
  | nil => simp [splitOnChar]
  | cons c rest ih =>
    have hc : ¬(c = sep) := fun e => h (e ▸ List.mem_cons_self c rest)
    have ih2 := ih (fun hm => h (List.mem_cons_of_mem c hm))
    rw [List.cons_append, splitOnChar, if_neg hc, ih2]

theorem sep_mem_of_split_length {sep : Char} {l : List Char}
    (h : 2 ≤ (splitOnChar sep l).length) : sep ∈ l := by
  induction l with
  | nil => simp [splitOnChar] at h
  | cons c rest ih =>
    by_cases hc : c = sep
    · exact hc ▸ List.mem_cons_self c rest
    · rw [splitOnChar, if_neg hc] at h
      rcases hsp : splitOnChar sep rest with _ | ⟨hd, tl⟩
      · exact absurd hsp (splitOnChar_ne_nil sep rest)
      · rw [hsp] at h
        simp only [List.length_cons] at h
        refine List.mem_cons_of_mem c (ih ?_)
        rw [hsp]
        simp only [List.length_cons]
        omega

/-! ### Lemmas connecting the regex shapes with the numeric parsers -/

theorem isShortDigits_facts {l : List Char} (h : isShortDigits l = true) :
    l ≠ [] ∧ ∀ c ∈ l, c.isDigit = true := by
  simp only [isShortDigits, Bool.and_eq_true, decide_eq_true_eq, List.all_eq_true] at h
  exact ⟨List.length_pos.mp (by omega), h.2⟩

theorem isDottedQuadRe_shape {v : List Char} (h : isDottedQuadRe v = true) :
    ∃ a b c d, splitOnChar '.' v = [a, b, c, d] ∧ isShortDigits a = true ∧
      isShortDigits b = true ∧ isShortDigits c = true ∧ isShortDigits d = true := by
  unfold isDottedQuadRe at h
  rcases e : splitOnChar '.' v with _ | ⟨a, _ | ⟨b, _ | ⟨c, _ | ⟨d, _ | ⟨x, t⟩⟩⟩⟩⟩ <;>
    rw [e] at h <;> simp only [Bool.and_eq_true] at h
  · cases h
  · cases h
  · cases h
  · cases h
  · exact ⟨a, b, c, d, rfl, h.1.1.1, h.1.1.2, h.1.2, h.2⟩
  · cases h

theorem quad_values {v : List Char} (h : isDottedQuadRe v = true) :
    ∃ n : Int, version_to_int v = some n ∧ specQuadVal v = some n := by
  obtain ⟨a, b, c, d, hsp, ha, hb, hc, hd⟩ := isDottedQuadRe_shape h
  obtain ⟨hane, hadig⟩ := isShortDigits_facts ha
  obtain ⟨hbne, hbdig⟩ := isShortDigits_facts hb
  obtain ⟨hcne, hcdig⟩ := isShortDigits_facts hc
  obtain ⟨hdne, hddig⟩ := isShortDigits_facts hd
  have hv : v ≠ [] := by
    intro e
    rw [e] at hsp
    simp [splitOnChar] at hsp
  refine ⟨(digitsVal a : Int) * 1000000 + (digitsVal b : Int) * 10000 +
    (digitsVal c : Int) * 100 + (digitsVal d : Int), ?_, ?_⟩
  · rw [version_to_int, if_neg hv, hsp]
    rw [intListParse, pyInt_digits hane hadig,
      intListParse, pyInt_digits hbne hbdig,
      intListParse, pyInt_digits hcne hcdig,
      intListParse, pyInt_digits hdne hddig,
      intListParse]
    rfl
  · simp only [specQuadVal, hsp, ha, hb, hc, hd, Bool.and_self, if_true]

theorem isNightlyRe_shape {v : List Char} (h : isNightlyRe v = true) :
    ∃ hex, v = v.take 8 ++ '-' :: hex ∧ (v.take 8).length = 8 ∧
      (∀ c ∈ v.take 8, c.isDigit = true) ∧ (∀ c ∈ hex, isHexDigitAscii c = true) := by
  unfold isNightlyRe at h
  rcases e : v.drop 8 with _ | ⟨c0, hx⟩ <;> rw [e] at h <;>
    simp only [Bool.and_eq_true, decide_eq_true_eq, List.all_eq_true] at h
  · cases h.2
  · obtain ⟨⟨h1, h2⟩, ⟨⟨h3, _⟩, h5⟩⟩ := h
    have htd := List.take_append_drop 8 v
    rw [e, h3] at htd
    exact ⟨hx, htd.symm, h1, h2, h5⟩

theorem nightly_values {v : List Char} (h : isNightlyRe v = true) :
    ∃ n : Int, nightly_to_int v = some n ∧ specNightlyVal v = some n := by
  obtain ⟨hex, hv, hlen, hdig, _⟩ := isNightlyRe_shape h
  have hne : v.take 8 ≠ [] := List.length_pos.mp (by omega)
  have hvne : v ≠ [] := by
    intro e
    rw [e] at hlen
    simp at hlen
  have hdash : '-' ∉ v.take 8 := fun hm => isDigit_ne (hdig _ hm) (by decide) rfl
  refine ⟨(digitsVal (v.take 8) : Int), ?_, ?_⟩
  · rw [nightly_to_int, if_neg hvne]
    conv_lhs => rw [hv]
    rw [splitOnChar_append hdash]
    simp only [List.headD_cons]
    exact pyInt_digits hne hdig
  · rw [specNightlyVal, if_pos h]

theorem quad_not_nightly {v : List Char} (hq : isDottedQuadRe v = true) :
    isNightlyRe v = false := by
  rcases hn : isNightlyRe v
  · rfl
  exfalso
  obtain ⟨a, b, c, d, hsp, _, _, _, _⟩ := isDottedQuadRe_shape hq
  have hdot : '.' ∈ v := sep_mem_of_split_length (by rw [hsp]; simp)
  obtain ⟨hex, hv, _, hdig, hhex⟩ := isNightlyRe_shape hn
  rw [hv] at hdot
  rcases List.mem_append.mp hdot with hm | hm
  · exact isDigit_ne (hdig _ hm) (by decide) rfl
  · rcases List.mem_cons.mp hm with hm | hm
    · cases hm
    · have := hhex _ hm
      simp [isHexDigitAscii] at this

theorem specQuadVal_eq_none {v : List Char} (h : isDottedQuadRe v = false) :
    specQuadVal v = none := by
  rcases e : splitOnChar '.' v with _ | ⟨a, _ | ⟨b, _ | ⟨c, _ | ⟨d, _ | ⟨x, t⟩⟩⟩⟩⟩
  all_goals simp only [isDottedQuadRe, e] at h
  all_goals simp only [specQuadVal, e]
  all_goals simp_all

theorem specNightlyVal_eq_none {v : List Char} (h : isNightlyRe v = false) :
    specNightlyVal v = none := by
  rw [specNightlyVal, if_neg]
  rw [h]
  exact Bool.false_ne_true

/-- One firmware-shape arm of the classifier equals the corresponding disjunction of
the spec-side quad and nightly tests, for any comparison predicates. -/
theorem arm_eq (w : List Char) (f g : Int → Bool) :
    (if isDottedQuadRe w then
        (match version_to_int w with | some n => f n | none => false)
      else if isNightlyRe w then
        (match nightly_to_int w with | some n => g n | none => false)
      else false) =
    ((match specQuadVal w with | some n => f n | none => false) ||
     (match specNightlyVal w with | some n => g n | none => false)) := by
  by_cases hq : isDottedQuadRe w = true
  · obtain ⟨n, h1, h2⟩ := quad_values hq
    have h3 := specNightlyVal_eq_none (quad_not_nightly hq)
    rw [if_pos hq, h1, h2, h3]
    simp
  · have h2 := specQuadVal_eq_none (by simpa using hq)
    rw [if_neg hq, h2]
    by_cases hn : isNightlyRe w = true
    · obtain ⟨m, h4, h5⟩ := nightly_values hn
      rw [if_pos hn, h4, h5]
      simp
    · have h5 := specNightlyVal_eq_none (by simpa using hn)
      rw [if_neg hn, h5]
      simp

theorem classifySpec_nil (kind : String) (vc nc : Int) :
    classifySpec [] kind vc nc = false := by
  unfold classifySpec
  split_ifs <;> rfl

/-- Evaluation of the classifier at kind olsr on a nonempty version string. -/
theorem is_firmware_eval_olsr (v : List Char) (vc nc : Int) (hv : v ≠ []) :
    is_firmware v "olsr" vc nc =
      (if isDottedQuadRe (pyStrip v) then
        (match version_to_int (pyStrip v) with | some n => decide (n < vc) | none => false)
      else if isNightlyRe (pyStrip v) then
        (match nightly_to_int (pyStrip v) with | some n => decide (n < nc) | none => false)
      else false) := by
  rw [is_firmware.eq_def, if_neg hv]
  simp only []
  rw [if_neg (by decide : ¬("olsr" = "babel"))]
  simp

/-- Evaluation of the classifier at kind combo on a nonempty version string. -/
theorem is_firmware_eval_combo (v : List Char) (vc nc : Int) (hv : v ≠ []) :
    is_firmware v "combo" vc nc =
      (if "babel-".data.isPrefixOf (pyStrip v) then false
       else if isDottedQuadRe (pyStrip v) then
        (match version_to_int (pyStrip v) with | some n => decide (vc ≤ n) | none => false)
      else if isNightlyRe (pyStrip v) then
        (match nightly_to_int (pyStrip v) with | some n => decide (nc ≤ n) | none => false)
      else false) := by
  rw [is_firmware.eq_def, if_neg hv]
  simp only []
  rw [if_neg (by decide : ¬("combo" = "babel")), if_neg (by decide : ¬("combo" = "olsr"))]
  simp

/-! ### Claims C6, C7, C9 -/

/-- Claim C6 (amended): the source classifier agrees with the spec's classify rules
applied to the whitespace-trimmed version string — for kind babel, true iff the
trimmed version begins with the literal "babel-"; for olsr, true iff the trimmed
version is a 1-2-digit dotted quad strictly below versionCutoff or a nightly strictly
below nightlyCutoff; for combo, true iff not babel-prefixed and a dotted quad or
nightly at-or-above its cutoff; false for every other input. -/
theorem claim_c6_classify (v : List Char) (kind : String) (vc nc : Int) :
    is_firmware v kind vc nc = classifySpec (pyStrip v) kind vc nc := by
  by_cases hv : v = []
  · subst hv
    rw [show pyStrip ([] : List Char) = [] from rfl, classifySpec_nil]
    rfl
  · rw [is_firmware.eq_def]
    rw [if_neg hv]
    simp only []
    by_cases k1 : kind = "babel"
    · subst k1
      rw [if_pos rfl, classifySpec, if_pos rfl]
    · rw [if_neg k1, classifySpec.eq_def, if_neg k1]
      by_cases k2 : kind = "olsr"
      · subst k2
        rw [if_pos rfl, if_pos rfl]
        exact arm_eq (pyStrip v) (fun n => decide (n < vc)) (fun n => decide (n < nc))
      · rw [if_neg k2, if_neg k2]
        by_cases k3 : kind = "combo"
        · subst k3
          rw [if_pos rfl, if_pos rfl]
          rcases hb : "babel-".data.isPrefixOf (pyStrip v)
          · simp only [Bool.not_false, Bool.true_and]
            exact arm_eq (pyStrip v) (fun n => decide (vc ≤ n)) (fun n => decide (nc ≤ n))
          · simp
        · rw [if_neg k3, if_neg k3]

/-- Claim C6 counterexample: over the raw (untrimmed) version string the claimed
characterisation fails — a version with a leading space is classified babel by the
code although it does not begin with the literal "babel-". -/
theorem claim_c6_counterexample :
    is_firmware (' ' :: "babel-1".data) "babel" 3250500 20250507 = true ∧
    classifySpec (' ' :: "babel-1".data) "babel" 3250500 20250507 = false := by
  exact ⟨by decide, by decide⟩

/-- Claim C7 (amended): versionToOrder parses dot-separated digit runs, zero-padding
missing components and ignoring components beyond the fourth; on dotted quads it
yields a*10^6 + b*10^4 + c*10^2 + d and the spec's examples hold, but it does not
reject every non-quad input: "3" parses to 3000000. -/
theorem claim_c7_version_to_order :
    (∀ a b c d : List Char,
      a ≠ [] → (∀ ch ∈ a, ch.isDigit = true) →
      b ≠ [] → (∀ ch ∈ b, ch.isDigit = true) →
      c ≠ [] → (∀ ch ∈ c, ch.isDigit = true) →
      d ≠ [] → (∀ ch ∈ d, ch.isDigit = true) →
      version_to_int (a ++ '.' :: (b ++ '.' :: (c ++ '.' :: d))) =
        some ((digitsVal a : Int) * 1000000 + (digitsVal b : Int) * 10000 +
          (digitsVal c : Int) * 100 + (digitsVal d : Int))) ∧
    version_to_int "3.25.5.0".data = some 3250500 ∧
    version_to_int "3.25.5".data = version_to_int "3.25.5.0".data ∧
    version_to_int "garbage".data = none ∧
    version_to_int "3".data = some 3000000 := by
  refine ⟨?_, by decide, by decide, by decide, by decide⟩
  intro a b c d hane hadig hbne hbdig hcne hcdig hdne hddig
  have hadot : '.' ∉ a := fun hm => isDigit_ne (hadig _ hm) (by decide) rfl
  have hbdot : '.' ∉ b := fun hm => isDigit_ne (hbdig _ hm) (by decide) rfl
  have hcdot : '.' ∉ c := fun hm => isDigit_ne (hcdig _ hm) (by decide) rfl
  have hddot : '.' ∉ d := fun hm => isDigit_ne (hddig _ hm) (by decide) rfl
  have hsp : splitOnChar '.' (a ++ '.' :: (b ++ '.' :: (c ++ '.' :: d))) = [a, b, c, d] := by
    rw [splitOnChar_append hadot, splitOnChar_append hbdot, splitOnChar_append hcdot,
      splitOnChar_not_mem hddot]
  have hv : a ++ '.' :: (b ++ '.' :: (c ++ '.' :: d)) ≠ [] := by
    obtain ⟨x, t, rfl⟩ := List.exists_cons_of_ne_nil hane
    simp
  rw [version_to_int, if_neg hv, hsp, intListParse, pyInt_digits hane hadig,
    intListParse, pyInt_digits hbne hbdig, intListParse, pyInt_digits hcne hcdig,
    intListParse, pyInt_digits hdne hddig, intListParse]
  rfl

/-- Witness for claim C7: the general dotted-quad rule applied at "1.2.3.4". -/
theorem claim_c7_witness : version_to_int "1.2.3.4".data = some 1020304 := by
  have h := claim_c7_version_to_order.1 ['1'] ['2'] ['3'] ['4']
    (by decide) (by decide) (by decide) (by decide)
    (by decide) (by decide) (by decide) (by decide)
  rw [show "1.2.3.4".data = ['1'] ++ '.' :: (['2'] ++ '.' :: (['3'] ++ '.' :: ['4'])) by decide]
  rw [h]
  decide

/-- Claim C7 counterexample: the input "3" is not a dotted quad of the claimed shape
yet versionToOrder parses it to 3000000 instead of returning absent. -/
theorem claim_c7_counterexample :
    version_to_int "3".data = some 3000000 ∧ isDottedQuadRe "3".data = false := by
  exact ⟨by decide, by decide⟩

/-- Claim C9: for every version string and cutoffs, the classifier never reports a
version as both olsr and combo. -/
theorem claim_c9_olsr_combo_exclusive (v : List Char) (vc nc : Int) :
    (is_firmware v "olsr" vc nc && is_firmware v "combo" vc nc) = false := by
  by_cases hv : v = []
  · subst hv
    rfl
  · rw [is_firmware_eval_olsr v vc nc hv, is_firmware_eval_combo v vc nc hv]
    by_cases hb : "babel-".data.isPrefixOf (pyStrip v) = true
    · rw [if_pos hb]
      simp
    · rw [if_neg hb]
      by_cases hq : isDottedQuadRe (pyStrip v) = true
      · rw [if_pos hq, if_pos hq]
        cases hvi : version_to_int (pyStrip v) with
        | none => simp
        | some n =>
          show (decide (n < vc) && decide (vc ≤ n)) = false
          rcases lt_or_le n vc with h | h
          · rw [decide_eq_false (not_le.mpr h)]
            simp
          · rw [decide_eq_false (not_lt.mpr h)]
            simp
      · rw [if_neg hq, if_neg hq]
        by_cases hn : isNightlyRe (pyStrip v) = true
        · rw [if_pos hn, if_pos hn]
          cases hni : nightly_to_int (pyStrip v) with
          | none => simp
          | some n =>
            show (decide (n < nc) && decide (nc ≤ n)) = false
            rcases lt_or_le n nc with h | h
            · rw [decide_eq_false (not_le.mpr h)]
              simp
            · rw [decide_eq_false (not_lt.mpr h)]
              simp
        · rw [if_neg hn, if_neg hn]
          simp

/-! ### NodeInfo and the persistence adapter (source lines 171-537) -/

/-- The NodeInfo dataclass with its source defaults.  Floats carrying decimal data are
modelled as `ℚ`. -/
structure NodeInfo where
  node : String := ""
  wlan_ip : String := ""
  uptime : String := "Not Available"
  loadavg : String := "Not Available"
  model : String := "Not Available"
  firmware_version : String := "Not Available"
  ssid : String := "None"
  channel : String := "None"
  chanbw : String := "None"
  tunnel_installed : String := "false"
  active_tunnel_count : String := "0"
  lat : ℚ := 0
  lon : ℚ := 0
  wifi_mac_address : String := ""
  api_version : String := "0.0.0"
  board_id : String := "Not Available"
  firmware_mfg : String := "Not Available"
  grid_square : String := "Not Available"
  lan_ip : String := "Not Available"
  services : String := "Not Available"
  description : String := ""
  mesh_supernode : String := "false"
  mesh_gateway : String := "false"
  freq : String := "None"
  link_info : String := ""
  hopsAway : ℤ := 0
  meshRF : String := "on"
  band : String := "Unknown"
  last_seen : Option String := none
  response_time_ms : ℚ := 0
  antGain : ℚ := 0
  antBeam : ℚ := 0
  antDesc : String := "Not Available"
  antBuiltin : String := "false"
deriving DecidableEq

/-- Round-half-to-even to an integer, the tie rule of Python round(). -/
def roundHalfEvenQ (x : ℚ) : ℤ :=
  if x - ⌊x⌋ < 1 / 2 then ⌊x⌋
  else if 1 / 2 < x - ⌊x⌋ then ⌊x⌋ + 1
  else if ⌊x⌋ % 2 = 0 then ⌊x⌋ else ⌊x⌋ + 1

/-- Model of Python round(x, k): exact half-even rounding to k decimal digits. -/
def pyRound (x : ℚ) (k : ℕ) : ℚ := (roundHalfEvenQ (x * 10 ^ k) : ℚ) / 10 ^ k

/-- Result of `upsert_node`: the SQL parameter row (as the mutated NodeInfo), the
separately computed nullable link_info parameter, and the two validation warnings.
The SQL itself writes these values verbatim on insert and on duplicate-key update
(link_info via COALESCE) and sets last_seen = NOW(); DB errors are logged and
re-raised, but coordinate validation never fails the statement. -/
structure UpsertResult where
  row : NodeInfo
  linkInfoParam : Option String
  warnLat : Bool
  warnLon : Bool
deriving DecidableEq

/-- Embedding of `MySQLAdapter.upsert_node` (source lines 398-472): empty-string
normalisation of services/loadavg, NULL for empty link_info, rounding of lat/lon to
7 decimal digits, then range validation that only logs warnings. -/
def upsert_node (node_data : NodeInfo) : UpsertResult :=
  let services := if node_data.services = "" then "" else node_data.services
  let linkInfoParam := if node_data.link_info = "" then none else some node_data.link_info
  let loadavg := if node_data.loadavg = "" then "" else node_data.loadavg
  let lat := pyRound node_data.lat 7
  let lon := pyRound node_data.lon 7
  { row := { node_data with lat := lat, lon := lon, services := services, loadavg := loadavg },
    linkInfoParam := linkInfoParam,
    warnLat := decide (lat < -90) || decide (90 < lat),
    warnLon := decide (lon < -180) || decide (180 < lon) }

theorem roundHalfEvenQ_abs (y : ℚ) : |(roundHalfEvenQ y : ℚ) - y| ≤ 1 / 2 := by
  unfold roundHalfEvenQ
  have h0 : (0 : ℚ) ≤ y - ⌊y⌋ := by
    have := Int.floor_le y
    linarith
  have h1 : y - ⌊y⌋ < 1 := by
    have := Int.lt_floor_add_one y
    linarith
  split_ifs with ha hb hc
  · rw [abs_le]
    constructor <;> linarith
  · push_cast
    rw [abs_le]
    constructor <;> linarith
  · rw [abs_le]
    constructor <;> linarith
  · push_cast
    rw [abs_le]
    constructor <;> linarith

theorem pyRound_abs (x : ℚ) (k : ℕ) : |pyRound x k - x| ≤ 1 / (2 * 10 ^ k) := by
  have hp : (0 : ℚ) < 10 ^ k := by positivity
  have h := roundHalfEvenQ_abs (x * 10 ^ k)
  have e : pyRound x k - x = ((roundHalfEvenQ (x * 10 ^ k) : ℚ) - x * 10 ^ k) / 10 ^ k := by
    unfold pyRound
    field_simp
    ring
  rw [e, abs_div, abs_of_pos hp, div_le_div_iff₀ hp (by positivity)]
  nlinarith [abs_nonneg ((roundHalfEvenQ (x * 10 ^ k) : ℚ) - x * 10 ^ k)]

/-- Claim C5: for every node record, upsert_node rounds lat and lon to 7 fractional
digits before the write (the stored value is an integer multiple of 10^-7 within
5*10^-8 of the input), emits a warning exactly when the stored value lies outside
[-90, 90] resp. [-180, 180], and always produces the row with those values stored
as given — invalid coordinates are not clamped and do not fail the upsert. -/
theorem claim_c5_upsert_coordinates (node_data : NodeInfo) :
    (upsert_node node_data).row.lat = pyRound node_data.lat 7 ∧
    (upsert_node node_data).row.lon = pyRound node_data.lon 7 ∧
    (∃ z : ℤ, (upsert_node node_data).row.lat = (z : ℚ) / 10 ^ 7) ∧
    (∃ z : ℤ, (upsert_node node_data).row.lon = (z : ℚ) / 10 ^ 7) ∧
    |(upsert_node node_data).row.lat - node_data.lat| ≤ 1 / (2 * 10 ^ 7) ∧
    |(upsert_node node_data).row.lon - node_data.lon| ≤ 1 / (2 * 10 ^ 7) ∧
    ((upsert_node node_data).warnLat = true ↔
      ((upsert_node node_data).row.lat < -90 ∨ 90 < (upsert_node node_data).row.lat)) ∧
    ((upsert_node node_data).warnLon = true ↔
      ((upsert_node node_data).row.lon < -180 ∨ 180 < (upsert_node node_data).row.lon)) ∧
    (upsert_node node_data).row.node = node_data.node ∧
    (upsert_node node_data).row.wlan_ip = node_data.wlan_ip ∧
    (upsert_node node_data).row.hopsAway = node_data.hopsAway := by
  refine ⟨rfl, rfl, ⟨roundHalfEvenQ (node_data.lat * 10 ^ 7), rfl⟩,
    ⟨roundHalfEvenQ (node_data.lon * 10 ^ 7), rfl⟩,
    pyRound_abs node_data.lat 7, pyRound_abs node_data.lon 7, ?_, ?_, rfl, rfl, rfl⟩
  · simp [upsert_node]
  · simp [upsert_node]

/-! ### Cycle statistics persistence (source lines 499-528, 810-826, 953-1005) -/

/-- The in-memory statistics map initialised in `MeshPollingDaemon.__init__`. -/
structure PollStats where
  numParallelThreads : ℤ
  nodeTotal : ℤ
  garbageReturned : ℤ
  highestHops : ℤ
  totalPolled : ℤ
  nodesWithErrors : ℤ
  noLocation : ℤ
  mappableNodes : ℤ
  mappableLinks : ℤ
  pollingTimeSec : ℚ
  babelNodes : ℤ
  olsrNodes : ℤ
  comboNodes : ℤ
  minResponseTimeMs : ℚ
  maxResponseTimeMs : ℚ
deriving DecidableEq

/-- A value bound into the SQL statement of save_polling_stats. -/
inductive SqlValue where
  | intVal (n : ℤ)
  | ratVal (q : ℚ)
  | strVal (s : String)
  | nowVal
deriving DecidableEq

/-- Embedding of `MySQLAdapter.save_polling_stats`: the column/value pairs written by
the INSERT (the ON DUPLICATE KEY UPDATE clause assigns the same values to the same
columns, so one row models both paths). -/
def save_polling_stats (stats : PollStats) : List (String × SqlValue) :=
  [("id", SqlValue.strVal "POLLINFO"),
   ("numParallelThreads", SqlValue.intVal stats.numParallelThreads),
   ("nodeTotal", SqlValue.intVal stats.nodeTotal),
   ("garbageReturned", SqlValue.intVal stats.garbageReturned),
   ("highestHops", SqlValue.intVal stats.highestHops),
   ("totalPolled", SqlValue.intVal stats.totalPolled),
   ("noLocation", SqlValue.intVal stats.noLocation),
   ("mappableNodes", SqlValue.intVal stats.mappableNodes),
   ("mappableLinks", SqlValue.intVal stats.mappableLinks),
   ("pollingTimeSec", SqlValue.ratVal stats.pollingTimeSec),
   ("lastPollingRun", SqlValue.nowVal)]

/-- The phases of `MeshPollingDaemon._poll_cycle` in source order. -/
inductive CycleStep where
  | fetchTopology
  | buildNodeList
  | updateTopologyInfo
  | pollAllNodes
  | calculateStats
  | buildLinkTopology
  | generateDataFiles
  | savePollingStats
  | logStatistics
deriving DecidableEq, BEq

/-- The step sequence executed by one poll cycle (source lines 953-1005). -/
def poll_cycle_steps : List CycleStep :=
  [CycleStep.fetchTopology, CycleStep.buildNodeList, CycleStep.updateTopologyInfo,
   CycleStep.pollAllNodes, CycleStep.calculateStats, CycleStep.buildLinkTopology,
   CycleStep.generateDataFiles, CycleStep.savePollingStats, CycleStep.logStatistics]

/-- A concrete statistics map used to exhibit the persisted columns. -/
def exampleStats : PollStats :=
  { numParallelThreads := 60, nodeTotal := 10, garbageReturned := 1, highestHops := 1,
    totalPolled := 9, nodesWithErrors := 1, noLocation := 2, mappableNodes := 7,
    mappableLinks := 5, pollingTimeSec := 25/2, babelNodes := 3, olsrNodes := 4,
    comboNodes := 2, minResponseTimeMs := 3/2, maxResponseTimeMs := 321/4 }

/-- Claim C2 (amended): after artifact generation, saveStats persists the single
aggregate row keyed "POLLINFO" carrying the configured concurrency, candidate count,
failed count, max hops, polled count, no-location count, mappable node and link
counts, cycle duration and the run timestamp; the per-protocol counts and the
min/max response times stay in the in-memory stats map (emitted into
map_data.json's pollingInfo) and are not part of the persisted row. -/
theorem claim_c2_stats_row (stats : PollStats) :
    (save_polling_stats stats).map Prod.fst =
      ["id", "numParallelThreads", "nodeTotal", "garbageReturned", "highestHops",
       "totalPolled", "noLocation", "mappableNodes", "mappableLinks",
       "pollingTimeSec", "lastPollingRun"] ∧
    (save_polling_stats stats).lookup "id" = some (SqlValue.strVal "POLLINFO") ∧
    (save_polling_stats stats).lookup "numParallelThreads" =
      some (SqlValue.intVal stats.numParallelThreads) ∧
    (save_polling_stats stats).lookup "nodeTotal" = some (SqlValue.intVal stats.nodeTotal) ∧
    (save_polling_stats stats).lookup "garbageReturned" =
      some (SqlValue.intVal stats.garbageReturned) ∧
    (save_polling_stats stats).lookup "highestHops" =
      some (SqlValue.intVal stats.highestHops) ∧
    (save_polling_stats stats).lookup "totalPolled" =
      some (SqlValue.intVal stats.totalPolled) ∧
    (save_polling_stats stats).lookup "noLocation" = some (SqlValue.intVal stats.noLocation) ∧
    (save_polling_stats stats).lookup "mappableNodes" =
      some (SqlValue.intVal stats.mappableNodes) ∧
    (save_polling_stats stats).lookup "mappableLinks" =
      some (SqlValue.intVal stats.mappableLinks) ∧
    (save_polling_stats stats).lookup "pollingTimeSec" =
      some (SqlValue.ratVal stats.pollingTimeSec) ∧
    poll_cycle_steps.indexOf CycleStep.generateDataFiles <
      poll_cycle_steps.indexOf CycleStep.savePollingStats := by
  refine ⟨rfl, rfl, rfl, rfl, rfl, rfl, rfl, rfl, rfl, rfl, rfl, by decide⟩

/-- Claim C2 counterexample: the persisted row does not carry the per-protocol
counts nor the min and max response time — no such columns are written by
save_polling_stats (nor exist in the map_info schema). -/
theorem claim_c2_counterexample :
    ((save_polling_stats exampleStats).map Prod.fst).contains "babelNodes" = false ∧
    ((save_polling_stats exampleStats).map Prod.fst).contains "olsrNodes" = false ∧
    ((save_polling_stats exampleStats).map Prod.fst).contains "comboNodes" = false ∧
    ((save_polling_stats exampleStats).map Prod.fst).contains "minResponseTimeMs" = false ∧
    ((save_polling_stats exampleStats).map Prod.fst).contains "maxResponseTimeMs" = false ∧
    (save_polling_stats exampleStats).lookup "id" = some (SqlValue.strVal "POLLINFO") := by
  refine ⟨by decide, by decide, by decide, by decide, by decide, by decide⟩

/-! ### Sysinfo interface scan (source lines 749-765) -/

/-- Python `s.startswith(pre)` on the character-list view of the strings. -/
def pyStartsWith (s pre : String) : Bool := pre.data.isPrefixOf s.data

/-- One element of the sysinfo `interfaces` array, with the source defaults of
`iface.get('name', '')` and `iface.get('ip', '')`; `mac` is present iff the key
'mac' is in the dict. -/
structure IfaceEntry where
  name : String := ""
  ip : String := ""
  mac : Option String := none
deriving DecidableEq

/-- The body of the `for iface in value` loop of `_parse_sysinfo` for the
`interfaces` key: the only writes to wlan_ip, lan_ip and wifi_mac_address. -/
def parse_iface_step (node_info : NodeInfo) (iface : IfaceEntry) : NodeInfo :=
  if iface.name = "wlan0" ∨ iface.name = "wlan1" then
    let ni := match iface.mac with
      | some m => { node_info with wifi_mac_address := m }
      | none => node_info
    if iface.ip ≠ "" ∧ iface.ip ≠ "none" then { ni with wlan_ip := iface.ip } else ni
  else if iface.name = "br-lan" ∧ iface.ip ≠ "" ∧ iface.ip ≠ "none" then
    { node_info with lan_ip := iface.ip }
  else if iface.name = "eth1.3975" ∨ iface.name = "eth0.3975" ∨
      iface.name = "br-nomesh" ∨ iface.name = "br0" then
    if iface.ip ≠ "" ∧ iface.ip ≠ "none" ∧ pyStartsWith iface.ip "10." then
      { node_info with wlan_ip := iface.ip }
    else node_info
  else node_info

/-- The full interfaces pass: the loop folded over the array in document order. -/
def parse_interfaces (node_info : NodeInfo) (ifaces : List IfaceEntry) : NodeInfo :=
  ifaces.foldl parse_iface_step node_info

/-- An interface whose processing overwrites wlan_ip. -/
def setsWlanIp (i : IfaceEntry) : Bool :=
  decide (((i.name = "wlan0" ∨ i.name = "wlan1") ∧ i.ip ≠ "" ∧ i.ip ≠ "none") ∨
    ((i.name = "eth1.3975" ∨ i.name = "eth0.3975" ∨ i.name = "br-nomesh" ∨ i.name = "br0") ∧
      i.ip ≠ "" ∧ i.ip ≠ "none" ∧ pyStartsWith i.ip "10." = true))

/-- An interface whose processing overwrites lan_ip. -/
def setsLanIp (i : IfaceEntry) : Bool :=
  decide (i.name = "br-lan" ∧ i.ip ≠ "" ∧ i.ip ≠ "none")

/-- An interface whose processing overwrites wifi_mac_address. -/
def setsWifiMac (i : IfaceEntry) : Bool :=
  decide ((i.name = "wlan0" ∨ i.name = "wlan1") ∧ i.mac.isSome = true)

theorem parse_iface_step_fields (ni : NodeInfo) (i : IfaceEntry) :
    (parse_iface_step ni i).wlan_ip = (if setsWlanIp i = true then i.ip else ni.wlan_ip) ∧
    (parse_iface_step ni i).lan_ip = (if setsLanIp i = true then i.ip else ni.lan_ip) ∧
    (parse_iface_step ni i).wifi_mac_address =
      (if setsWifiMac i = true then i.mac.getD ni.wifi_mac_address
       else ni.wifi_mac_address) := by
  rcases i with ⟨nm, ip, mac⟩
  rcases mac with _ | m <;>
    simp only [parse_iface_step, setsWlanIp, setsLanIp, setsWifiMac] <;>
    split_ifs <;> simp_all <;>
    rcases ‹nm = "wlan0" ∨ nm = "wlan1"› with h | h <;> subst h <;> simp_all

/-- Claim C4 (amended): the interfaces pass is last-writer-wins in array order —
the parsed wlan_ip is the IP of the last interface named wlan0/wlan1 with a
nonempty IP other than "none", or named eth1.3975/eth0.3975/br-nomesh/br0 with a
nonempty non-"none" IP starting with "10.", whichever comes later, defaulting to
the caller-supplied IP; lan_ip comes from the last usable br-lan interface;
wifi_mac_address from the last wlan0/wlan1 interface carrying a mac key; an IP
value of "none" (or "") is treated as absent.  A wlan0/wlan1 interface is not
preferred over a later fallback interface. -/
theorem claim_c4_interface_last_writer (ifaces : List IfaceEntry) (ni : NodeInfo) :
    (parse_interfaces ni ifaces).wlan_ip =
      ((ifaces.reverse.find? setsWlanIp).map IfaceEntry.ip).getD ni.wlan_ip ∧
    (parse_interfaces ni ifaces).lan_ip =
      ((ifaces.reverse.find? setsLanIp).map IfaceEntry.ip).getD ni.lan_ip ∧
    (parse_interfaces ni ifaces).wifi_mac_address =
      ((ifaces.reverse.find? setsWifiMac).bind IfaceEntry.mac).getD ni.wifi_mac_address := by
  induction ifaces generalizing ni with
  | nil => exact ⟨rfl, rfl, rfl⟩
  | cons i rest ih =>
    obtain ⟨hw, hl, hm⟩ := ih (parse_iface_step ni i)
    obtain ⟨sw, sl, sm⟩ := parse_iface_step_fields ni i
    have e1 : parse_interfaces ni (i :: rest) = parse_interfaces (parse_iface_step ni i) rest :=
      rfl
    have e2 : (i :: rest).reverse = rest.reverse ++ [i] := by simp
    refine ⟨?_, ?_, ?_⟩
    · rw [e1, hw, e2, List.find?_append]
      cases e : rest.reverse.find? setsWlanIp with
      | some j => rfl
      | none =>
        rcases hsi : setsWlanIp i with _ | _ <;>
          simp [List.find?_cons, hsi, sw, Option.or]
    · rw [e1, hl, e2, List.find?_append]
      cases e : rest.reverse.find? setsLanIp with
      | some j => rfl
      | none =>
        rcases hsi : setsLanIp i with _ | _ <;>
          simp [List.find?_cons, hsi, sl, Option.or]
    · rw [e1, hm, e2, List.find?_append]
      cases e : rest.reverse.find? setsWifiMac with
      | some j =>
        have hj : setsWifiMac j = true := List.find?_some e
        simp only [setsWifiMac, decide_eq_true_eq] at hj
        obtain ⟨m, hmj⟩ := Option.isSome_iff_exists.mp hj.2
        simp [hmj, Option.or]
      | none =>
        rcases hsi : setsWifiMac i with _ | _ <;>
          simp [List.find?_cons, hsi, sm, Option.or]

/-- Claim C4 counterexample: a usable wlan0 interface (IP 10.1.1.1) is present, yet
the parsed record's canonical wlan_ip is 10.9.9.9, taken from the later br0
interface — wlan0/wlan1 do not take precedence as the claim states. -/
theorem claim_c4_counterexample :
    (parse_interfaces ({ wlan_ip := "10.0.0.5" } : NodeInfo)
      [{ name := "wlan0", ip := "10.1.1.1", mac := some "00:11:22:33:44:55" },
       { name := "br0", ip := "10.9.9.9" }]).wlan_ip = "10.9.9.9" ∧
    (([{ name := "wlan0", ip := "10.1.1.1", mac := some "00:11:22:33:44:55" },
       { name := "br0", ip := "10.9.9.9" }] : List IfaceEntry).filter
      (fun i => decide ((i.name = "wlan0" ∨ i.name = "wlan1") ∧
        i.ip ≠ "" ∧ i.ip ≠ "none"))).map IfaceEntry.ip = ["10.1.1.1"] := by
  exact ⟨by decide, by decide⟩

/-! ### Artifact band bucketing (source lines 1396-1551) -/

/-- The columns of a node row read by the allDevices categorisation in
`_generate_data_files` (lat/lon are DECIMAL, the rest VARCHAR), with the defaults
the code supplies via dict.get. -/
structure DbNodeRow where
  node : String := ""
  wlan_ip : String := ""
  lat : ℚ := 0
  lon : ℚ := 0
  mesh_supernode : String := "false"
  meshRF : String := "on"
  channel : String := "none"
  board_id : String := ""
deriving DecidableEq

/-- The six allDevices buckets, keyed in the JSON as noRF, supernode, 900, 2ghz,
3ghz and 5ghz. -/
inductive Band where
  | noRF
  | supernode
  | b900
  | b2ghz
  | b3ghz
  | b5ghz
deriving DecidableEq

/-- The if/elif categorisation chain of `_generate_data_files` (lines 1522-1551):
which bucket, if any, a node row is appended to.  Python str.isdigit is modelled as
a nonempty run of ASCII digits; the `isinstance(channel, int)` arm is unreachable
because the channel column is VARCHAR, so it is not modelled. -/
def bucketAssign (node : DbNodeRow) : Option Band :=
  if node.lat ≠ 0 ∨ node.lon ≠ 0 then
    if node.mesh_supernode = "true" then some Band.supernode
    else if node.meshRF = "off" ∨ node.channel = "none" then some Band.noRF
    else if node.channel = "none" then some Band.noRF
    else if node.board_id = "0xe009" ∨ node.board_id = "0xe1b9" ∨
        node.board_id = "0xe239" then some Band.b900
    else if node.channel.data ≠ [] ∧ node.channel.data.all Char.isDigit then
      let ch := digitsVal node.channel.data
      if ch ≤ 11 then some Band.b2ghz
      else if (37 ≤ ch ∧ ch ≤ 64) ∨ (100 ≤ ch ∧ ch ≤ 184) ∨ 3000 ≤ ch then some Band.b5ghz
      else if 76 ≤ ch ∧ ch ≤ 99 then some Band.b3ghz
      else none
    else none
  else none

/-- The allDevices mapping under construction. -/
structure AllDevices where
  noRF : List DbNodeRow := []
  supernode : List DbNodeRow := []
  band900 : List DbNodeRow := []
  band2ghz : List DbNodeRow := []
  band3ghz : List DbNodeRow := []
  band5ghz : List DbNodeRow := []
deriving DecidableEq

/-- Append a node row to one bucket. -/
def add_to_band (ad : AllDevices) (b : Band) (node : DbNodeRow) : AllDevices :=
  match b with
  | Band.noRF => { ad with noRF := ad.noRF ++ [node] }
  | Band.supernode => { ad with supernode := ad.supernode ++ [node] }
  | Band.b900 => { ad with band900 := ad.band900 ++ [node] }
  | Band.b2ghz => { ad with band2ghz := ad.band2ghz ++ [node] }
  | Band.b3ghz => { ad with band3ghz := ad.band3ghz ++ [node] }
  | Band.b5ghz => { ad with band5ghz := ad.band5ghz ++ [node] }

/-- Processing of one row of the loop body: append to the assigned bucket, if any. -/
def bucket_step (ad : AllDevices) (node : DbNodeRow) : AllDevices :=
  match bucketAssign node with
  | some b => add_to_band ad b node
  | none => ad

/-- The allDevices construction over all rows, starting from the empty buckets. -/
def generate_all_devices (rows : List DbNodeRow) : AllDevices :=
  rows.foldl bucket_step {}

/-- Bucket selector. -/
def bandList (ad : AllDevices) : Band → List DbNodeRow
  | Band.noRF => ad.noRF
  | Band.supernode => ad.supernode
  | Band.b900 => ad.band900
  | Band.b2ghz => ad.band2ghz
  | Band.b3ghz => ad.band3ghz
  | Band.b5ghz => ad.band5ghz

theorem bandList_add (ad : AllDevices) (b2 b : Band) (n : DbNodeRow) :
    bandList (add_to_band ad b2 n) b =
      if b2 = b then bandList ad b ++ [n] else bandList ad b := by
  cases b2 <;> cases b <;> simp [add_to_band, bandList]

theorem generate_bands (rows : List DbNodeRow) : ∀ (ad : AllDevices) (b : Band),
    bandList (rows.foldl bucket_step ad) b =
      bandList ad b ++ rows.filter (fun n => decide (bucketAssign n = some b)) := by
  induction rows with
  | nil =>
    intro ad b
    simp
  | cons n rest ih =>
    intro ad b
    rw [List.foldl_cons, ih, List.filter_cons]
    cases hb : bucketAssign n with
    | none => simp [bucket_step, hb]
    | some b2 =>
      by_cases hbb : b2 = b
      · subst hbb
        simp [bucket_step, hb, bandList_add]
      · simp [bucket_step, hb, bandList_add, hbb, Option.some.injEq]

theorem filters_sum_le (rows : List DbNodeRow) :
    (rows.filter (fun n => decide (bucketAssign n = some Band.noRF))).length +
    (rows.filter (fun n => decide (bucketAssign n = some Band.supernode))).length +
    (rows.filter (fun n => decide (bucketAssign n = some Band.b900))).length +
    (rows.filter (fun n => decide (bucketAssign n = some Band.b2ghz))).length +
    (rows.filter (fun n => decide (bucketAssign n = some Band.b3ghz))).length +
    (rows.filter (fun n => decide (bucketAssign n = some Band.b5ghz))).length ≤
      rows.length := by
  induction rows with
  | nil => simp
  | cons n rest ih =>
    simp only [List.filter_cons, List.length_cons]
    cases hb : bucketAssign n with
    | none =>
      simp [hb]
      omega
    | some b =>
      cases b <;> simp [hb] <;> omega

/-- Claim C10: each node row is placed in at most one of the six allDevices
buckets — every bucket is exactly the rows the categorisation chain assigns to it,
and the bucket sizes sum to at most the number of rows — and a row whose latitude
and longitude are both zero is assigned no bucket and appears in none of them. -/
theorem claim_c10_band_buckets (rows : List DbNodeRow) :
    (∀ b : Band, bandList (generate_all_devices rows) b =
      rows.filter (fun n => decide (bucketAssign n = some b))) ∧
    ((generate_all_devices rows).noRF.length + (generate_all_devices rows).supernode.length +
      (generate_all_devices rows).band900.length + (generate_all_devices rows).band2ghz.length +
      (generate_all_devices rows).band3ghz.length + (generate_all_devices rows).band5ghz.length ≤
        rows.length) ∧
    (∀ n : DbNodeRow, n.lat = 0 → n.lon = 0 →
      bucketAssign n = none ∧ ∀ b : Band, n ∉ bandList (generate_all_devices rows) b) := by
  have hempty : ∀ b : Band, bandList {} b = [] := by
    intro b
    cases b <;> rfl
  have hchar : ∀ b : Band, bandList (generate_all_devices rows) b =
      rows.filter (fun n => decide (bucketAssign n = some b)) := by
    intro b
    rw [generate_all_devices, generate_bands rows {} b, hempty b, List.nil_append]
  refine ⟨hchar, ?_, ?_⟩
  · have h1 := hchar Band.noRF
    have h2 := hchar Band.supernode
    have h3 := hchar Band.b900
    have h4 := hchar Band.b2ghz
    have h5 := hchar Band.b3ghz
    have h6 := hchar Band.b5ghz
    simp only [bandList] at h1 h2 h3 h4 h5 h6
    rw [h1, h2, h3, h4, h5, h6]
    exact filters_sum_le rows
  · intro n hlat hlon
    have hno : bucketAssign n = none := by
      rw [bucketAssign, if_neg]
      push_neg
      exact ⟨hlat, hlon⟩
    refine ⟨hno, ?_⟩
    intro b hmem
    rw [hchar b] at hmem
    have := (List.mem_filter.mp hmem).2
    rw [hno] at this
    simp at this

/-- A row with zero coordinates, for the claim C10 witness. -/
def exZeroRow : DbNodeRow :=
  { node := "zero", wlan_ip := "10.0.0.9", lat := 0, lon := 0, channel := "6" }

/-- A small row list exercising the bucketing, for the claim C10 witness. -/
def exBandRows : List DbNodeRow :=
  [exZeroRow,
   { node := "n2", wlan_ip := "10.0.0.2", lat := 40, lon := -105, channel := "6" }]

/-- Witness for claim C10 at a concrete row list: the zero-coordinate row is
assigned no bucket and is absent from the 2ghz bucket, whose content matches the
filter characterisation. -/
theorem claim_c10_witness :
    bucketAssign exZeroRow = none ∧
    exZeroRow ∉ bandList (generate_all_devices exBandRows) Band.b2ghz ∧
    bandList (generate_all_devices exBandRows) Band.b2ghz =
      exBandRows.filter (fun n => decide (bucketAssign n = some Band.b2ghz)) := by
  obtain ⟨h1, _, h3⟩ := claim_c10_band_buckets exBandRows
  have hz := h3 exZeroRow rfl rfl
  exact ⟨hz.1, hz.2 Band.b2ghz, h1 Band.b2ghz⟩

/-! ### Topology discovery and the poll fan-out (source lines 792-847, 953-1258) -/

/-- Python str.lower() over the character list (ASCII model). -/
def pyToLower (s : String) : String := String.mk (s.data.map Char.toLower)

/-- Python str.upper() over the character list (ASCII model). -/
def pyToUpper (s : String) : String := String.mk (s.data.map Char.toUpper)

/-- One entry of the seed's nodes[] list, with the fields the coordinator reads. -/
structure NodeEntry where
  name : Option String := none
  ip : Option String := none
  lat : Option ℚ := none
  lon : Option ℚ := none
  is_localnode : Bool := false
deriving DecidableEq

/-- One entry of the seed document's interfaces array as read by _fetch_topology. -/
structure FetchIface where
  name : Option String := none
  ip : Option String := none
deriving DecidableEq

/-- One LQM tracker, with the fields _fetch_topology reads. -/
structure LqmTracker where
  canonical_ip : Option String := none
  ip : Option String := none
  ltype : Option String := none
  device : Option String := none
  rxcost : Option ℚ := none
  txcost : Option ℚ := none
  rtt : Option ℚ := none
  distance : Option ℚ := none
  quality : Option ℚ := none
  hostname : Option String := none
  lat : Option ℚ := none
  lon : Option ℚ := none
deriving DecidableEq

/-- A LinkRecord as built by _fetch_topology; dict keys the code does not set are
modelled as none. -/
structure LinkRec where
  destinationIP : String
  linkType : Option String := none
  interface : Option String := none
  rxcost : Option ℚ := none
  txcost : Option ℚ := none
  rtt : Option ℚ := none
  distance : Option ℚ := none
  quality : Option ℚ := none
  hostname : Option String := none
  lat : Option ℚ := none
  lon : Option ℚ := none
deriving DecidableEq

/-- The ?nodes=1 payload fields read by _fetch_topology. -/
structure NodesPayload where
  node : Option String := none
  lat : Option ℚ := none
  lon : Option ℚ := none
  interfaces : Option (List FetchIface) := none
  nodes : Option (List NodeEntry) := none
deriving DecidableEq

/-- The ?lqm=1 payload: trackers under lqm.info.trackers, with lqm.trackers as the
secondary location. -/
structure LqmPayload where
  infoTrackers : Option (List (String × LqmTracker)) := none
  trackers : Option (List (String × LqmTracker)) := none
deriving DecidableEq

/-- One value of the ?link_info=1 fallback mapping. -/
structure LinkInfoEntry where
  linkType : Option String := none
  interface : Option String := none
  hostname : Option String := none
deriving DecidableEq

/-- The ?link_info=1 payload. -/
structure LinkInfoPayload where
  link_info : Option (List (String × LinkInfoEntry)) := none
deriving DecidableEq

/-- Python dict assignment d[k] = v: overwrite in place when the key exists, else
append (CPython dicts preserve first-insertion order). -/
def dictInsert {β : Type} (k : String) (v : β) : List (String × β) → List (String × β)
  | [] => [(k, v)]
  | (k2, v2) :: rest => if k2 = k then (k, v) :: rest else (k2, v2) :: dictInsert k v rest

/-- Truthiness of an optional string (Python: None and the empty string are falsy). -/
def truthyStr (o : Option String) : Bool :=
  match o with
  | some s => decide (s ≠ "")
  | none => false

/-- The link-type normalisation of the tracker loop. -/
def normLinkType (link_type : String) : String :=
  let lt_lower := pyToLower link_type
  if lt_lower = "wireguard" ∨ lt_lower = "tunnel" ∨ lt_lower = "tun" then "TUN"
  else if lt_lower = "dtd" ∨ lt_lower = "dtdlink" then "DTD"
  else if lt_lower = "rf" then "RF"
  else if link_type ≠ "" then pyToUpper link_type else "UNKNOWN"

/-- Build one LinkRecord from an LQM tracker, as the tracker loop does. -/
def trackerToLink (dest_ip : String) (t : LqmTracker) : LinkRec :=
  { destinationIP := dest_ip,
    linkType := some (normLinkType ((t.ltype).getD "")),
    interface := t.device,
    rxcost := t.rxcost, txcost := t.txcost, rtt := t.rtt,
    distance := t.distance, quality := t.quality,
    hostname := t.hostname, lat := t.lat, lon := t.lon }

/-- The tracker loop of _fetch_topology: destination is canonical_ip when truthy,
else ip; entries without a truthy destination are skipped. -/
def buildLinkMapFromTrackers (ts : List (String × LqmTracker)) : List (String × LinkRec) :=
  ts.foldl
    (fun link_map kv =>
      let t := kv.2
      match (if truthyStr t.canonical_ip then t.canonical_ip else t.ip) with
      | some dest_ip =>
        if dest_ip ≠ "" then dictInsert dest_ip (trackerToLink dest_ip t) link_map
        else link_map
      | none => link_map)
    []

/-- The trackers lookup: lqm.info.trackers, falling back to lqm.trackers when the
former is absent or falsy. -/
def effectiveTrackers (lqm_payload : Option LqmPayload) :
    Option (List (String × LqmTracker)) :=
  match lqm_payload with
  | none => none
  | some lq =>
    match lq.infoTrackers with
    | some l => if l.isEmpty then lq.trackers else some l
    | none => lq.trackers

/-- The link_info fallback loop of _fetch_topology. -/
def buildLinkMapFromLinkInfo (entries : List (String × LinkInfoEntry)) :
    List (String × LinkRec) :=
  entries.foldl
    (fun link_map kv =>
      dictInsert kv.1
        { destinationIP := kv.1, linkType := kv.2.linkType,
          interface := kv.2.interface, hostname := kv.2.hostname } link_map)
    []

/-- Exceptions the embedded topology fetch can raise. -/
inductive PyErr where
  | attributeError
deriving DecidableEq

/-- The topology bundle returned by _fetch_topology.  The links mapping is keyed by
the value of self.localnode_ip — an Option, because Python None is a valid dict key
and self.localnode_ip is None unless previously set. -/
structure TopoBundle where
  nodes : List NodeEntry
  links : List (Option String × List (String × LinkRec))
deriving DecidableEq

/-- The daemon state touched by topology discovery.  __init__ sets
localnode_ip = None; no other code assigns it except _build_node_list on entries
flagged is_localnode. -/
structure DaemonTopoState where
  nodelistNode : String
  nodelistNode_ip : Option String := none
  localnode_ip : Option String := none
  initial_link_map : List (Option String × List (String × LinkRec)) := []
deriving DecidableEq

/-- First seed-IP resolution pass: the first br-nomesh interface with a truthy IP
starting with "10.". -/
def resolveBrNomesh : List FetchIface → Option String
  | [] => none
  | i :: rest =>
    if i.name = some "br-nomesh" then
      match i.ip with
      | some s => if s ≠ "" ∧ pyStartsWith s "10." then some s else resolveBrNomesh rest
      | none => resolveBrNomesh rest
    else resolveBrNomesh rest

/-- Second resolution pass: remember the latest non-"none"/"None" IP, stopping at
the first one that starts with "10.". -/
def resolveAnyIp : List FetchIface → Option String → Option String
  | [], acc => acc
  | i :: rest, acc =>
    match i.ip with
    | some s =>
      if s ≠ "" ∧ s ≠ "none" ∧ s ≠ "None" then
        (if pyStartsWith s "10." then some s else resolveAnyIp rest (some s))
      else resolveAnyIp rest acc
    | none => resolveAnyIp rest acc

/-- Embedding of `MeshPollingDaemon._fetch_topology` (source lines 1007-1126) as a
function of the three fetched payloads and the daemon state.  The append of the
seed to the node list evaluates the attribute `self.localnode`, which is assigned
nowhere in the class, so reaching that branch raises AttributeError; the branch is
guarded by `self.localnode_ip` being truthy. -/
def fetch_topology (st : DaemonTopoState) (nodes_payload : Option NodesPayload)
    (lqm_payload : Option LqmPayload) (link_info_payload : Option LinkInfoPayload) :
    Except PyErr (Option TopoBundle × DaemonTopoState) :=
  let nodes_list : List NodeEntry := (nodes_payload.map fun p => (p.nodes).getD []).getD []
  let interfaces : List FetchIface :=
    (nodes_payload.map fun p => (p.interfaces).getD []).getD []
  let resolved : Option String :=
    match resolveBrNomesh interfaces with
    | some s => some s
    | none => resolveAnyIp interfaces none
  let nodelistIp : String :=
    match resolved with
    | some s => if s = "" then st.nodelistNode else s
    | none => st.nodelistNode
  let st1 := { st with nodelistNode_ip := some nodelistIp }
  let link_map_t : List (String × LinkRec) :=
    match effectiveTrackers lqm_payload with
    | some l => if l.isEmpty then [] else buildLinkMapFromTrackers l
    | none => []
  let link_map : List (String × LinkRec) :=
    if link_map_t.isEmpty then
      match link_info_payload with
      | some lp =>
        match lp.link_info with
        | some entries => if entries.isEmpty then [] else buildLinkMapFromLinkInfo entries
        | none => []
      | none => []
    else link_map_t
  let link_map_by_source : List (Option String × List (String × LinkRec)) :=
    if nodelistIp ≠ "" ∧ ¬link_map.isEmpty then [(st.localnode_ip, link_map)] else []
  let ensure : Except PyErr Unit :=
    if truthyStr st.localnode_ip then
      if nodes_list.any (fun n => decide (n.ip = st.localnode_ip)) then Except.ok ()
      else Except.error PyErr.attributeError
    else Except.ok ()
  match ensure with
  | Except.error e => Except.error e
  | Except.ok _ =>
    if nodes_list.isEmpty then Except.ok (none, st1)
    else
      Except.ok (some { nodes := nodes_list, links := link_map_by_source },
        { st1 with initial_link_map := link_map_by_source })

/-- Per-node info built by _build_node_list. -/
structure DevInfo where
  hopsAway : Option ℤ
  link_info : List (String × LinkRec)
  lat : Option ℚ
  lon : Option ℚ
  name : Option String
  is_localnode : Bool
deriving DecidableEq

/-- link_map_by_source.get(ip, {}): look the plain string ip up among the
Option-keyed sources (a None key never matches a string). -/
def lookupLinkSource (links : List (Option String × List (String × LinkRec)))
    (ip : String) : List (String × LinkRec) :=
  match links.find? (fun kv => decide (kv.1 = some ip)) with
  | some kv => kv.2
  | none => []

/-- Loop body of _build_node_list (source lines 1137-1155): skip entries without a
truthy ip, record hops = 1, set localnode_ip on entries flagged is_localnode, and
insert the device info under the ip key. -/
def build_node_step (links : List (Option String × List (String × LinkRec)))
    (acc : List (String × DevInfo) × ℤ × DaemonTopoState) (n : NodeEntry) :
    List (String × DevInfo) × ℤ × DaemonTopoState :=
  match n.ip with
  | none => acc
  | some ip =>
    if ip = "" then acc
    else
      let hops : ℤ := 1
      let max_hops := if hops > acc.2.1 then hops else acc.2.1
      let st2 :=
        if n.is_localnode then { acc.2.2 with localnode_ip := some ip } else acc.2.2
      (dictInsert ip
        { hopsAway := some hops,
          link_info := lookupLinkSource links ip,
          lat := n.lat, lon := n.lon, name := n.name,
          is_localnode := n.is_localnode } acc.1,
       max_hops, st2)

/-- Embedding of `MeshPollingDaemon._build_node_list` (source lines 1128-1158):
the ip-keyed device dict, the max hops (stored into stats.highestHops), and the
state with localnode_ip possibly updated. -/
def build_node_list (topo : TopoBundle) (st : DaemonTopoState) :
    List (String × DevInfo) × ℤ × DaemonTopoState :=
  topo.nodes.foldl (build_node_step topo.links) ([], 0, st)

/-- pollerCycleSeconds = max(pollerCycleTime * 60, 1) (source line 805). -/
def poller_cycle_seconds (poller_cycle_minutes : ℕ) : ℕ :=
  max (poller_cycle_minutes * 60) 1

/-- The concurrency budget chosen at the top of the fan-out (source lines 976-980):
600 on the first cycle, the configured numParallelThreads afterwards. -/
def pollBudget (cycle_count : ℕ) (base_parallel_threads : ℕ) : ℕ :=
  if cycle_count = 1 then 600 else base_parallel_threads

/-- Task-creation loop of _poll_all_nodes (source lines 1210-1215): enumerate the
device dict, skip entries whose hops are None, and give the task created at
enumeration index idx the start delay inter_poll_delay * idx on cycles after the
first. -/
def poll_schedule_aux (cycle_count : ℕ) (inter_poll_delay : ℚ) (idx : ℕ) :
    List (String × DevInfo) → List (String × ℤ × ℚ)
  | [] => []
  | (ip, info) :: rest =>
    match info.hopsAway with
    | none => poll_schedule_aux cycle_count inter_poll_delay (idx + 1) rest
    | some h =>
      (ip, h, if 1 < cycle_count then inter_poll_delay * (idx : ℚ) else 0) ::
        poll_schedule_aux cycle_count inter_poll_delay (idx + 1) rest

/-- The rate-limit schedule of _poll_all_nodes (source lines 1177-1215):
inter_poll_delay = poller_cycle_seconds / len(node_devices) on cycles after the
first when the device dict is nonempty, else 0. -/
def poll_all_nodes_schedule (cycle_count : ℕ) (cycle_seconds : ℚ)
    (node_devices : List (String × DevInfo)) : List (String × ℤ × ℚ) :=
  let total_nodes := node_devices.length
  let inter_poll_delay : ℚ :=
    if 1 < cycle_count ∧ 0 < total_nodes then cycle_seconds / (total_nodes : ℚ) else 0
  poll_schedule_aux cycle_count inter_poll_delay 0 node_devices

theorem mem_dictInsert {β : Type} {k : String} {v : β} {l : List (String × β)}
    {d : String × β} (hd : d ∈ dictInsert k v l) : d = (k, v) ∨ d ∈ l := by
  induction l with
  | nil =>
    simp only [dictInsert] at hd
    simpa using hd
  | cons kv rest ih =>
    rw [dictInsert] at hd
    split at hd
    · rcases List.mem_cons.mp hd with h | h
      · exact Or.inl h
      · exact Or.inr (List.mem_cons_of_mem _ h)
    · rcases List.mem_cons.mp hd with h | h
      · exact Or.inr (h ▸ List.mem_cons_self _ _)
      · rcases ih h with h2 | h2
        · exact Or.inl h2
        · exact Or.inr (List.mem_cons_of_mem _ h2)

theorem build_node_step_hops (links : List (Option String × List (String × LinkRec)))
    (acc : List (String × DevInfo) × ℤ × DaemonTopoState) (n : NodeEntry)
    (h : ∀ d ∈ acc.1, d.2.hopsAway = some 1) :
    ∀ d ∈ (build_node_step links acc n).1, d.2.hopsAway = some 1 := by
  intro d hd
  rcases e : n.ip with _ | ip
  · simp only [build_node_step, e] at hd
    exact h d hd
  · simp only [build_node_step, e] at hd
    split at hd
    · exact h d hd
    · dsimp only at hd
      rcases mem_dictInsert hd with h2 | h2
      · rw [h2]
      · exact h d h2

/-- Every device entry built by _build_node_list carries hopsAway = 1: the
discoverer cannot express transitive hop counts, so the pollable candidates are
exactly all candidates. -/
theorem build_node_list_hops (topo : TopoBundle) (st : DaemonTopoState) :
    ∀ d ∈ (build_node_list topo st).1, d.2.hopsAway = some 1 := by
  suffices hgen : ∀ (nodes : List NodeEntry)
      (acc : List (String × DevInfo) × ℤ × DaemonTopoState),
      (∀ d ∈ acc.1, d.2.hopsAway = some 1) →
      ∀ d ∈ (nodes.foldl (build_node_step topo.links) acc).1, d.2.hopsAway = some 1 by
    exact hgen topo.nodes ([], 0, st) (by simp)
  intro nodes
  induction nodes with
  | nil => intro acc h; exact h
  | cons n rest ih =>
    intro acc h
    rw [List.foldl_cons]
    exact ih _ (build_node_step_hops topo.links acc n h)

theorem poll_schedule_aux_eval (cycle_count : ℕ) (inter : ℚ)
    (l : List (String × DevInfo)) :
    ∀ idx : ℕ, (∀ d ∈ l, (d.2.hopsAway).isSome = true) →
      (poll_schedule_aux cycle_count inter idx l).length = l.length ∧
      ∀ i, i < (poll_schedule_aux cycle_count inter idx l).length →
        ((poll_schedule_aux cycle_count inter idx l).getD i default).2.2 =
          (if 1 < cycle_count then inter * ((idx + i : ℕ) : ℚ) else 0) := by
  induction l with
  | nil =>
    intro idx _
    refine ⟨rfl, fun i hi => absurd hi ?_⟩
    simp [poll_schedule_aux]
  | cons d rest ih =>
    intro idx h
    obtain ⟨ip, info⟩ := d
    have hs := h (ip, info) (List.mem_cons_self _ _)
    obtain ⟨hval, hhop⟩ := Option.isSome_iff_exists.mp hs
    have e : poll_schedule_aux cycle_count inter idx ((ip, info) :: rest) =
        (ip, hval, if 1 < cycle_count then inter * (idx : ℚ) else 0) ::
          poll_schedule_aux cycle_count inter (idx + 1) rest := by
      rw [poll_schedule_aux, hhop]
    obtain ⟨ihlen, ihval⟩ := ih (idx + 1) (fun x hx => h x (List.mem_cons_of_mem _ hx))
    constructor
    · rw [e]
      simp [ihlen]
    · intro i hi
      rw [e] at hi ⊢
      cases i with
      | zero => simp
      | succ j =>
        simp only [List.getD, List.length_cons] at hi ⊢
        have hj : j < (poll_schedule_aux cycle_count inter (idx + 1) rest).length := by
          simp at hi
          omega
        have := ihval j hj
        simp only [List.getD] at this
        rw [show idx + 1 + j = idx + (j + 1) by omega] at this
        simpa using this

/-- Claim C1: on the first cycle the coordinator polls with an elevated concurrency
budget of 600; on every cycle with index greater than 1 it uses the configured
numParallelThreads, all candidates built by _build_node_list are pollable (known
hops), and the poll task with index i is scheduled with a start delay of
i * (cycleSeconds / N) where N is the number of pollable candidates and
cycleSeconds = max(pollerCycleTime * 60, 1). -/
theorem claim_c1_cycle_scheduling (poller_cycle_minutes base_parallel_threads cycle_count : ℕ)
    (topo : TopoBundle) (st : DaemonTopoState) :
    (cycle_count = 1 → pollBudget cycle_count base_parallel_threads = 600) ∧
    (1 < cycle_count →
      pollBudget cycle_count base_parallel_threads = base_parallel_threads ∧
      (build_node_list topo st).1.filter (fun d => (d.2.hopsAway).isSome) =
        (build_node_list topo st).1 ∧
      (poll_all_nodes_schedule cycle_count ((poller_cycle_seconds poller_cycle_minutes : ℕ) : ℚ)
        (build_node_list topo st).1).length =
        ((build_node_list topo st).1.filter (fun d => (d.2.hopsAway).isSome)).length ∧
      ∀ i, i < (poll_all_nodes_schedule cycle_count
          ((poller_cycle_seconds poller_cycle_minutes : ℕ) : ℚ)
          (build_node_list topo st).1).length →
        ((poll_all_nodes_schedule cycle_count
            ((poller_cycle_seconds poller_cycle_minutes : ℕ) : ℚ)
            (build_node_list topo st).1).getD i default).2.2 =
          (i : ℚ) * (((poller_cycle_seconds poller_cycle_minutes : ℕ) : ℚ) /
            ((((build_node_list topo st).1.filter
              (fun d => (d.2.hopsAway).isSome)).length : ℕ) : ℚ))) := by
  have hall : ∀ d ∈ (build_node_list topo st).1, d.2.hopsAway = some 1 :=
    build_node_list_hops topo st
  have hsome : ∀ d ∈ (build_node_list topo st).1, ((d.2.hopsAway).isSome : Bool) = true :=
    fun d hd => by rw [hall d hd]; rfl
  have hfilter : (build_node_list topo st).1.filter (fun d => (d.2.hopsAway).isSome) =
      (build_node_list topo st).1 := List.filter_eq_self.mpr hsome
  constructor
  · intro h1
    rw [pollBudget, if_pos h1]
  · intro hc
    have hcn : ¬(cycle_count = 1) := by omega
    refine ⟨by rw [pollBudget, if_neg hcn], hfilter, ?_⟩
    by_cases htot : (build_node_list topo st).1.length = 0
    · have hdevnil : (build_node_list topo st).1 = [] := List.length_eq_zero.mp htot
      rw [hfilter, hdevnil]
      exact ⟨rfl, fun i hi => absurd hi (by simp [poll_all_nodes_schedule, poll_schedule_aux])⟩
    · have hpos : 0 < (build_node_list topo st).1.length := Nat.pos_of_ne_zero htot
      have hint : poll_all_nodes_schedule cycle_count
          ((poller_cycle_seconds poller_cycle_minutes : ℕ) : ℚ) (build_node_list topo st).1 =
          poll_schedule_aux cycle_count
            (((poller_cycle_seconds poller_cycle_minutes : ℕ) : ℚ) /
              ((build_node_list topo st).1.length : ℚ)) 0 (build_node_list topo st).1 := by
        rw [poll_all_nodes_schedule]
        simp only [if_pos (And.intro hc hpos)]
      obtain ⟨hlen, hval⟩ := poll_schedule_aux_eval cycle_count
        (((poller_cycle_seconds poller_cycle_minutes : ℕ) : ℚ) /
          ((build_node_list topo st).1.length : ℚ)) (build_node_list topo st).1 0 hsome
      rw [hfilter]
      constructor
      · rw [hint, hlen]
      · intro i hi
        rw [hint] at hi ⊢
        rw [hval i hi, if_pos hc]
        push_cast
        ring

/-- A two-candidate topology bundle for the claim C1 witness. -/
def exTopo : TopoBundle :=
  { nodes := [{ ip := some "10.1.1.1" }, { ip := some "10.1.1.2" }], links := [] }

/-- Fresh daemon state for the claim C1 witness. -/
def exTopoState : DaemonTopoState := { nodelistNode := "seed.local.mesh" }

/-- Witness for claim C1: first-cycle budget 600, later budget 60, and with two
candidates and pollerCycleTime 1 minute the second task starts 30 seconds in. -/
theorem claim_c1_witness :
    pollBudget 1 60 = 600 ∧
    pollBudget 2 60 = 60 ∧
    ((poll_all_nodes_schedule 2 ((poller_cycle_seconds 1 : ℕ) : ℚ)
      (build_node_list exTopo exTopoState).1).getD 1 default).2.2 = 30 := by
  have h1 := (claim_c1_cycle_scheduling 1 60 1 exTopo exTopoState).1 rfl
  have h2 := (claim_c1_cycle_scheduling 1 60 2 exTopo exTopoState).2 (by omega)
  have h4 := h2.2.2.2 1 (by decide)
  refine ⟨h1, h2.1, ?_⟩
  rw [h4]
  have hflen : ((build_node_list exTopo exTopoState).1.filter
      (fun d => (d.2.hopsAway).isSome)).length = 2 := by decide
  rw [hflen, show poller_cycle_seconds 1 = 60 from rfl]
  push_cast
  norm_num

/-- The ?nodes=1 payload of a first-cycle topology fetch in which the seed is not
in the returned node list: seed document with its own node/lat/lon, a br-nomesh
interface resolving the seed IP 10.0.0.1, and one other node. -/
def exSeedNodesPayload : NodesPayload :=
  { node := some "seed-node", lat := some 1, lon := some 2,
    interfaces := some [{ name := some "br-nomesh", ip := some "10.0.0.1" }],
    nodes := some [{ name := some "other", ip := some "10.1.1.2",
                     lat := some 3, lon := some 4 }] }

/-- An LQM payload with one RF tracker towards the other node. -/
def exSeedLqmPayload : LqmPayload :=
  { infoTrackers := some [("10.1.1.2", { ip := some "10.1.1.2", ltype := some "rf" })] }

/-- The daemon state at the first fetch: localnode_ip is None as set by __init__. -/
def exSeedState : DaemonTopoState := { nodelistNode := "seed.local.mesh" }

/-- The link record the tracker loop builds. -/
def exSeedLink : LinkRec := { destinationIP := "10.1.1.2", linkType := some "RF" }

/-- The bundle _fetch_topology actually returns on that input. -/
def exSeedBundle : TopoBundle :=
  { nodes := [{ name := some "other", ip := some "10.1.1.2", lat := some 3, lon := some 4 }],
    links := [(none, [("10.1.1.2", exSeedLink)])] }

/-- The daemon state after that fetch. -/
def exSeedStateAfter : DaemonTopoState :=
  { nodelistNode := "seed.local.mesh", nodelistNode_ip := some "10.0.0.1",
    localnode_ip := none, initial_link_map := [(none, [("10.1.1.2", exSeedLink)])] }

/-- Claim C3 (code bug): on a topology fetch whose node list does not contain the
seed, the seed is NOT appended to the node list (its resolved IP 10.0.0.1 appears
nowhere in the bundle), and the links mapping is keyed by None — the value of
self.localnode_ip, which __init__ sets to None and which is only ever assigned
from an entry flagged is_localnode, a flag only the never-reached append sets.
The append branch itself would raise AttributeError on the unassigned attribute
self.localnode if it were ever reached. -/
theorem claim_c3_seed_not_appended :
    fetch_topology exSeedState (some exSeedNodesPayload) (some exSeedLqmPayload) none =
      Except.ok (some exSeedBundle, exSeedStateAfter) ∧
    exSeedStateAfter.nodelistNode_ip = some "10.0.0.1" ∧
    exSeedBundle.nodes.map NodeEntry.ip = [some "10.1.1.2"] ∧
    (some "10.0.0.1" ∉ exSeedBundle.nodes.map NodeEntry.ip) ∧
    exSeedBundle.links.map Prod.fst = [none] ∧
    exSeedStateAfter.localnode_ip = none := by
  refine ⟨by rfl, rfl, by rfl, by decide, by rfl, rfl⟩


/-! ### Distance and bearing (source lines 1358-1384), over the reals -/

/-- math.radians. -/
noncomputable def radiansR (d : ℝ) : ℝ := d * Real.pi / 180

/-- math.degrees. -/
noncomputable def degreesR (r : ℝ) : ℝ := r * 180 / Real.pi

/-- math.atan2 (C atan2 semantics on exact reals; the signed-zero distinction of
floats does not exist on ℝ). -/
noncomputable def atan2R (y x : ℝ) : ℝ :=
  if 0 < x then Real.arctan (y / x)
  else if x < 0 then
    (if 0 ≤ y then Real.arctan (y / x) + Real.pi else Real.arctan (y / x) - Real.pi)
  else
    (if 0 < y then Real.pi / 2 else if y < 0 then -(Real.pi / 2) else 0)

/-- Round half-to-even to an integer, over ℝ. -/
noncomputable def roundHalfEvenR (x : ℝ) : ℤ :=
  if x - ⌊x⌋ < 1 / 2 then ⌊x⌋
  else if 1 / 2 < x - ⌊x⌋ then ⌊x⌋ + 1
  else if ⌊x⌋ % 2 = 0 then ⌊x⌋ else ⌊x⌋ + 1

/-- Python round(x, k) over ℝ: exact half-even rounding to k decimal digits. -/
noncomputable def pyRoundR (x : ℝ) (k : ℕ) : ℝ := (roundHalfEvenR (x * 10 ^ k) : ℝ) / 10 ^ k

/-- Python float modulo: x % y = x - y * floor(x / y). -/
noncomputable def pymodR (x y : ℝ) : ℝ := x - y * ⌊x / y⌋

/-- The local variable a of _calculate_distance_bearing: the haversine of the
central angle. -/
noncomputable def haversineA (lat1 lon1 lat2 lon2 : ℝ) : ℝ :=
  Real.sin (radiansR (lat2 - lat1) / 2) ^ 2 +
    Real.cos (radiansR lat1) * Real.cos (radiansR lat2) *
      Real.sin (radiansR (lon2 - lon1) / 2) ^ 2

/-- The local variable c: the central angle 2*atan2(sqrt(a), sqrt(1-a)). -/
noncomputable def haversineC (lat1 lon1 lat2 lon2 : ℝ) : ℝ :=
  2 * atan2R (Real.sqrt (haversineA lat1 lon1 lat2 lon2))
    (Real.sqrt (1 - haversineA lat1 lon1 lat2 lon2))

/-- The local variable y of the bearing computation. -/
noncomputable def bearingY (lat1 lon1 lat2 lon2 : ℝ) : ℝ :=
  Real.sin (radiansR (lon2 - lon1)) * Real.cos (radiansR lat2)

/-- The local variable x of the bearing computation. -/
noncomputable def bearingX (lat1 lon1 lat2 lon2 : ℝ) : ℝ :=
  Real.cos (radiansR lat1) * Real.sin (radiansR lat2) -
    Real.sin (radiansR lat1) * Real.cos (radiansR lat2) * Real.cos (radiansR (lon2 - lon1))

/-- The local variable bearing before rounding:
(degrees(atan2(y, x)) + 360) % 360. -/
noncomputable def bearingRaw (lat1 lon1 lat2 lon2 : ℝ) : ℝ :=
  pymodR (degreesR (atan2R (bearingY lat1 lon1 lat2 lon2) (bearingX lat1 lon1 lat2 lon2)) + 360)
    360

/-- The dict returned by _calculate_distance_bearing. -/
structure DistBearing where
  distanceKM : ℝ
  distanceMiles : ℝ
  bearing : ℝ

/-- Embedding of `MeshPollingDaemon._calculate_distance_bearing` (source lines
1358-1384) over exact reals: haversine distance on the 6371 km sphere and initial
bearing, with distance rounded to 2 decimals and bearing to 1. -/
noncomputable def calculate_distance_bearing (lat1 lon1 lat2 lon2 : ℝ) : DistBearing :=
  { distanceKM := pyRoundR (6371 * haversineC lat1 lon1 lat2 lon2) 2,
    distanceMiles := pyRoundR (6371 * haversineC lat1 lon1 lat2 lon2 * 0.621371) 2,
    bearing := pyRoundR (bearingRaw lat1 lon1 lat2 lon2) 1 }

theorem atan2R_nonneg_of_nonneg {y x : ℝ} (hy : 0 ≤ y) :
    0 ≤ atan2R y x ∧ atan2R y x ≤ Real.pi := by
  have hp := Real.pi_pos
  unfold atan2R
  split_ifs with hx hx2 hy2 hy3
  · have h1 : 0 ≤ Real.arctan (y / x) := by
      have := Real.arctan_strictMono.monotone (div_nonneg hy hx.le)
      rwa [Real.arctan_zero] at this
    have h2 := Real.arctan_lt_pi_div_two (y / x)
    constructor <;> linarith
  · have h1 := Real.neg_pi_div_two_lt_arctan (y / x)
    have h2 : Real.arctan (y / x) ≤ 0 := by
      have := Real.arctan_strictMono.monotone (div_nonpos_of_nonneg_of_nonpos hy hx2.le)
      rwa [Real.arctan_zero] at this
    constructor <;> linarith
  · constructor <;> linarith
  · exact absurd hy3 (not_lt.mpr hy)
  · constructor <;> linarith

theorem pymodR_bounds (x : ℝ) {y : ℝ} (hy : 0 < y) :
    0 ≤ pymodR x y ∧ pymodR x y < y := by
  have e : pymodR x y = y * Int.fract (x / y) := by
    unfold pymodR
    rw [Int.fract]
    field_simp
  rw [e]
  constructor
  · exact mul_nonneg hy.le (Int.fract_nonneg _)
  · have := Int.fract_lt_one (x / y)
    nlinarith [Int.fract_nonneg (x / y)]

theorem roundHalfEvenR_cases (x : ℝ) :
    roundHalfEvenR x = ⌊x⌋ ∨ roundHalfEvenR x = ⌊x⌋ + 1 := by
  unfold roundHalfEvenR
  split_ifs
  · exact Or.inl rfl
  · exact Or.inr rfl
  · exact Or.inl rfl
  · exact Or.inr rfl

theorem pyRoundR_nonneg {x : ℝ} (k : ℕ) (h : 0 ≤ x) : 0 ≤ pyRoundR x k := by
  unfold pyRoundR
  have hfl : (0 : ℤ) ≤ ⌊x * 10 ^ k⌋ := Int.floor_nonneg.mpr (by positivity)
  have hn : (0 : ℤ) ≤ roundHalfEvenR (x * 10 ^ k) := by
    rcases roundHalfEvenR_cases (x * 10 ^ k) with h2 | h2 <;> omega
  have hc : (0 : ℝ) ≤ (roundHalfEvenR (x * 10 ^ k) : ℝ) := by exact_mod_cast hn
  exact div_nonneg hc (by positivity)

theorem pyRoundR_le {x : ℝ} {n : ℤ} (k : ℕ) (h : x * 10 ^ k < n) :
    pyRoundR x k ≤ (n : ℝ) / 10 ^ k := by
  have hfl : ⌊x * 10 ^ k⌋ < n := Int.floor_lt.mpr h
  have hle : roundHalfEvenR (x * 10 ^ k) ≤ n := by
    rcases roundHalfEvenR_cases (x * 10 ^ k) with h2 | h2 <;> omega
  have hle2 : (roundHalfEvenR (x * 10 ^ k) : ℝ) ≤ (n : ℝ) := by exact_mod_cast hle
  unfold pyRoundR
  have hp : (0 : ℝ) < 10 ^ k := by positivity
  exact (div_le_div_iff_of_pos_right hp).mpr hle2

theorem pyRoundR_zero (k : ℕ) : pyRoundR 0 k = 0 := by
  unfold pyRoundR roundHalfEvenR
  norm_num

theorem radiansR_zero : radiansR 0 = 0 := by
  unfold radiansR
  ring

theorem haversineA_nonneg (lat1 lon1 lat2 lon2 : ℝ) (h1 : -90 ≤ lat1) (h2 : lat1 ≤ 90)
    (h3 : -90 ≤ lat2) (h4 : lat2 ≤ 90) : 0 ≤ haversineA lat1 lon1 lat2 lon2 := by
  have hp := Real.pi_pos
  have hc : ∀ t : ℝ, -90 ≤ t → t ≤ 90 → 0 ≤ Real.cos (radiansR t) := by
    intro t ht1 ht2
    apply Real.cos_nonneg_of_mem_Icc
    apply Set.mem_Icc.mpr
    unfold radiansR
    constructor
    · nlinarith [mul_nonneg (by linarith : (0:ℝ) ≤ t + 90) hp.le]
    · nlinarith [mul_nonneg (by linarith : (0:ℝ) ≤ 90 - t) hp.le]
  unfold haversineA
  have := hc lat1 h1 h2
  have := hc lat2 h3 h4
  positivity

theorem haversineA_le_one (lat1 lon1 lat2 lon2 : ℝ) : haversineA lat1 lon1 lat2 lon2 ≤ 1 := by
  have hD : radiansR (lat2 - lat1) = radiansR lat2 - radiansR lat1 := by
    unfold radiansR
    ring
  have e1 := Real.cos_sub (radiansR lat2) (radiansR lat1)
  have e2 := Real.cos_add (radiansR lat2) (radiansR lat1)
  have e3 := Real.cos_sq ((radiansR lat2 - radiansR lat1) / 2)
  rw [show 2 * ((radiansR lat2 - radiansR lat1) / 2) = radiansR lat2 - radiansR lat1 by ring]
    at e3
  have hb := Real.cos_le_one (radiansR lat2 + radiansR lat1)
  have hcc : Real.cos (radiansR lat1) * Real.cos (radiansR lat2) ≤
      Real.cos ((radiansR lat2 - radiansR lat1) / 2) ^ 2 := by linarith
  have hs1 : 0 ≤ Real.sin (radiansR (lon2 - lon1) / 2) ^ 2 := sq_nonneg _
  have hs2 : Real.sin (radiansR (lon2 - lon1) / 2) ^ 2 ≤ 1 := Real.sin_sq_le_one _
  have hpyth := Real.sin_sq_add_cos_sq ((radiansR lat2 - radiansR lat1) / 2)
  unfold haversineA
  rw [hD]
  nlinarith [sq_nonneg (Real.cos ((radiansR lat2 - radiansR lat1) / 2))]

theorem atan2R_zero_one : atan2R 0 1 = 0 := by
  unfold atan2R
  rw [if_pos one_pos]
  simp [Real.arctan_zero]

theorem atan2R_zero_zero : atan2R 0 0 = 0 := by
  unfold atan2R
  simp

/-- Claim C8 (amended): over the real-valued model with latitudes in range, the
haversine argument a stays within the sqrt domain [0, 1], the returned distance is
non-negative, and the returned bearing lies in [0, 360] — the closed upper end,
rather than the claimed [0, 360), because rounding to 0.1 degrees maps raw
bearings just below 360 to exactly 360.0; for identical endpoints the function
returns distanceKM = 0 and bearing = 0. -/
theorem claim_c8_distance_bearing (lat1 lon1 lat2 lon2 : ℝ)
    (h1 : -90 ≤ lat1) (h2 : lat1 ≤ 90) (h3 : -90 ≤ lat2) (h4 : lat2 ≤ 90) :
    0 ≤ haversineA lat1 lon1 lat2 lon2 ∧ haversineA lat1 lon1 lat2 lon2 ≤ 1 ∧
    0 ≤ (calculate_distance_bearing lat1 lon1 lat2 lon2).distanceKM ∧
    0 ≤ (calculate_distance_bearing lat1 lon1 lat2 lon2).bearing ∧
    (calculate_distance_bearing lat1 lon1 lat2 lon2).bearing ≤ 360 ∧
    (lat1 = lat2 → lon1 = lon2 →
      (calculate_distance_bearing lat1 lon1 lat2 lon2).distanceKM = 0 ∧
      (calculate_distance_bearing lat1 lon1 lat2 lon2).bearing = 0) := by
  refine ⟨haversineA_nonneg lat1 lon1 lat2 lon2 h1 h2 h3 h4,
    haversineA_le_one lat1 lon1 lat2 lon2, ?_, ?_, ?_, ?_⟩
  · have hc : 0 ≤ haversineC lat1 lon1 lat2 lon2 := by
      unfold haversineC
      have := (atan2R_nonneg_of_nonneg
        (y := Real.sqrt (haversineA lat1 lon1 lat2 lon2))
        (x := Real.sqrt (1 - haversineA lat1 lon1 lat2 lon2)) (Real.sqrt_nonneg _)).1
      linarith
    exact pyRoundR_nonneg 2 (by positivity)
  · exact pyRoundR_nonneg 1 (pymodR_bounds _ (by norm_num)).1
  · have hraw := pymodR_bounds
      (degreesR (atan2R (bearingY lat1 lon1 lat2 lon2) (bearingX lat1 lon1 lat2 lon2)) + 360)
      (show (0:ℝ) < 360 by norm_num)
    have hlt : bearingRaw lat1 lon1 lat2 lon2 * 10 ^ 1 < ((3600 : ℤ) : ℝ) := by
      unfold bearingRaw
      push_cast
      nlinarith [hraw.2]
    have := pyRoundR_le 1 hlt
    have he : ((3600 : ℤ) : ℝ) / 10 ^ 1 = 360 := by norm_num
    calc (calculate_distance_bearing lat1 lon1 lat2 lon2).bearing
        ≤ ((3600 : ℤ) : ℝ) / 10 ^ 1 := this
      _ = 360 := he
  · intro heq1 heq2
    subst heq1
    subst heq2
    have ha : haversineA lat1 lon1 lat1 lon1 = 0 := by
      unfold haversineA
      rw [sub_self, sub_self, radiansR_zero]
      simp
    have hcc : haversineC lat1 lon1 lat1 lon1 = 0 := by
      unfold haversineC
      rw [ha]
      rw [Real.sqrt_zero, show (1:ℝ) - 0 = 1 by norm_num, Real.sqrt_one, atan2R_zero_one]
      ring
    have hy0 : bearingY lat1 lon1 lat1 lon1 = 0 := by
      unfold bearingY
      rw [sub_self, radiansR_zero, Real.sin_zero, zero_mul]
    have hx0 : bearingX lat1 lon1 lat1 lon1 = 0 := by
      unfold bearingX
      rw [sub_self, radiansR_zero, Real.cos_zero]
      ring
    have hraw0 : bearingRaw lat1 lon1 lat1 lon1 = 0 := by
      unfold bearingRaw
      rw [hy0, hx0, atan2R_zero_zero]
      unfold degreesR pymodR
      rw [show (0:ℝ) * 180 / Real.pi = 0 by ring, zero_add,
        show (360:ℝ) / 360 = 1 by norm_num, Int.floor_one]
      norm_num
    constructor
    · show pyRoundR (6371 * haversineC lat1 lon1 lat1 lon1) 2 = 0
      rw [hcc, mul_zero, pyRoundR_zero]
    · show pyRoundR (bearingRaw lat1 lon1 lat1 lon1) 1 = 0
      rw [hraw0, pyRoundR_zero]

/-- Witness for claim C8 at the identical endpoints (0, 0) and (0, 0). -/
theorem claim_c8_witness :
    0 ≤ (calculate_distance_bearing 0 0 0 0).distanceKM ∧
    (calculate_distance_bearing 0 0 0 0).bearing ≤ 360 ∧
    (calculate_distance_bearing 0 0 0 0).distanceKM = 0 ∧
    (calculate_distance_bearing 0 0 0 0).bearing = 0 := by
  have h := claim_c8_distance_bearing 0 0 0 0 (by norm_num) (by norm_num) (by norm_num)
    (by norm_num)
  exact ⟨h.2.2.1, h.2.2.2.2.1, (h.2.2.2.2.2 rfl rfl).1, (h.2.2.2.2.2 rfl rfl).2⟩

/-- Counterexample to claim C8: the bearing returned for (0, 0.0001) to (45, 0) is
exactly 360.0, not an element of [0, 360): the raw bearing lies just below 360 and
rounding to one decimal place carries it up to 360. -/
theorem claim_c8_counterexample :
    (calculate_distance_bearing 0 (1/10000) 45 0).bearing = 360 := by
  have hpi := Real.pi_pos
  set ε : ℝ := Real.pi / 1800000 with hε
  have hε_pos : 0 < ε := by positivity
  have hε_lt : ε < Real.pi := by
    rw [hε]
    nlinarith
  have hsin_pos : 0 < Real.sin ε := Real.sin_pos_of_pos_of_lt_pi hε_pos hε_lt
  have hsin_lt : Real.sin ε < ε := Real.sin_lt hε_pos
  have harc_pos : 0 < Real.arctan (Real.sin ε) := by
    have h2 := Real.arctan_strictMono hsin_pos
    rwa [Real.arctan_zero] at h2
  have harc_lt : Real.arctan (Real.sin ε) < ε := by
    have ht := Real.lt_tan harc_pos (Real.arctan_lt_pi_div_two _)
    rw [Real.tan_arctan] at ht
    linarith
  have hs2 : (0:ℝ) < Real.sqrt 2 / 2 := by positivity
  have hne : Real.sqrt 2 / 2 ≠ 0 := ne_of_gt hs2
  have hY : bearingY 0 (1/10000) 45 0 = -(Real.sin ε * (Real.sqrt 2 / 2)) := by
    unfold bearingY
    rw [show radiansR (0 - 1/10000) = -ε by
        unfold radiansR
        rw [hε]
        ring,
      show radiansR 45 = Real.pi / 4 by
        unfold radiansR
        ring,
      Real.sin_neg, Real.cos_pi_div_four]
    ring
  have hX : bearingX 0 (1/10000) 45 0 = Real.sqrt 2 / 2 := by
    unfold bearingX
    rw [show radiansR (0:ℝ) = 0 by
        unfold radiansR
        ring,
      show radiansR 45 = Real.pi / 4 by
        unfold radiansR
        ring,
      Real.sin_zero, Real.cos_zero, Real.sin_pi_div_four]
    ring
  have hdiv : -(Real.sin ε * (Real.sqrt 2 / 2)) / (Real.sqrt 2 / 2) = -Real.sin ε := by
    rw [neg_div, mul_div_assoc, div_self hne, mul_one]
  have hatan : atan2R (bearingY 0 (1/10000) 45 0) (bearingX 0 (1/10000) 45 0)
      = -Real.arctan (Real.sin ε) := by
    rw [hY, hX]
    unfold atan2R
    rw [if_pos hs2, hdiv, Real.arctan_neg]
  set d : ℝ := Real.arctan (Real.sin ε) * 180 / Real.pi with hd
  have hεdeg : ε * 180 / Real.pi = 1/10000 := by
    rw [hε]
    field_simp
    ring
  have hd_pos : 0 < d := by
    rw [hd]
    positivity
  have hd_lt : d < 1/10000 := by
    rw [hd, ← hεdeg]
    have h180 : (0:ℝ) < 180 / Real.pi := by positivity
    calc Real.arctan (Real.sin ε) * 180 / Real.pi
        = Real.arctan (Real.sin ε) * (180 / Real.pi) := by ring
      _ < ε * (180 / Real.pi) := mul_lt_mul_of_pos_right harc_lt h180
      _ = ε * 180 / Real.pi := by ring
  have hb0 : degreesR (atan2R (bearingY 0 (1/10000) 45 0) (bearingX 0 (1/10000) 45 0)) + 360
      = 360 - d := by
    rw [hatan]
    unfold degreesR
    rw [hd]
    ring
  have hfloor0 : ⌊(360 - d)/360⌋ = 0 := by
    apply Int.floor_eq_zero_iff.mpr
    apply Set.mem_Ico.mpr
    constructor
    · apply div_nonneg _ (by norm_num)
      linarith
    · rw [div_lt_one (by norm_num : (0:ℝ) < 360)]
      linarith
  have hraw : bearingRaw 0 (1/10000) 45 0 = 360 - d := by
    unfold bearingRaw pymodR
    rw [hb0, hfloor0]
    norm_num
  have hx10 : (360 - d) * 10 ^ 1 = 3600 - 10*d := by ring
  have hfloor2 : ⌊(3600 - 10*d : ℝ)⌋ = 3599 := by
    apply Int.floor_eq_iff.mpr
    constructor
    · push_cast
      linarith
    · push_cast
      linarith
  have hfr1 : ¬((3600 - 10*d : ℝ) - ((3599 : ℤ) : ℝ) < 1/2) := by
    push_cast
    linarith
  have hfr2 : (1:ℝ)/2 < (3600 - 10*d : ℝ) - ((3599 : ℤ) : ℝ) := by
    push_cast
    linarith
  have hround : roundHalfEvenR ((360 - d) * 10 ^ 1) = 3600 := by
    rw [hx10]
    unfold roundHalfEvenR
    rw [hfloor2, if_neg hfr1, if_pos hfr2]
    norm_num
  show pyRoundR (bearingRaw 0 (1/10000) 45 0) 1 = 360
  rw [hraw]
  unfold pyRoundR
  rw [hround]
  norm_num
end Nodographer
